import Mathlib

/-!
Verification of the object-storage HTTP service (upload / optimization /
metadata pipeline) against its natural-language specification.

The development shallowly embeds the relevant program parts:

* `app/utils/file_utils.py` — MIME classification, unique filenames, paths.
* `app/utils/web_utils.py` — image/video web optimization (the external
  image library and transcoder are modelled by explicit outcome oracles,
  the pure arithmetic — scaling, format selection, fallback policy — is
  translated directly).
* `app/utils/image_utils.py` — the `ImageOptimizer` implementation with
  its metrics (compression ratio).
* `app/api/routes.py` — the upload, delete and fetch endpoints, as state
  transformers over an explicit filesystem + record-store state, with
  injected failure points for disk writes, database commits and file
  removals.
* `app/service/crud.py` / `models.py` — the record store.

Machine reals (Python floats) are modelled as exact rationals; byte
strings are modelled as abstract blobs carrying a size, a content
identity and (for re-encoded images) the encoding that produced them.
-/

/-- File type classification, from `app/service/models.py` (`FileType`). -/
inductive FileType where
  | image
  | video
  | document
  | audio
  | other
deriving DecidableEq, Repr

/-- String value of a `FileType`, as stored/used for directory names
(`FileType(str, Enum)` values in `models.py`). -/
def fileTypeValue : FileType → String
  | .image => "image"
  | .video => "video"
  | .document => "document"
  | .audio => "audio"
  | .other => "other"

/-- Model of Python `str.lower()` (ASCII-adequate, which covers every MIME
string compared against in the source): lowercase each character. -/
def pyLower (s : String) : String := ⟨s.data.map Char.toLower⟩

/-- Model of Python `str.startswith`: the pattern's characters are a prefix
of the subject's characters. -/
def startswith (s p : String) : Bool :=
  p.data.isPrefixOf s.data

/-- The exact-match allowlist of document MIME strings from
`get_file_type_from_mime` in `app/utils/file_utils.py` (lines 16-19). -/
def document_mime_types : List String :=
  ["application/pdf", "application/msword",
   "application/vnd.openxmlformats-officedocument.wordprocessingml.document",
   "application/vnd.ms-excel",
   "application/vnd.openxmlformats-officedocument.spreadsheetml.sheet",
   "application/vnd.ms-powerpoint",
   "application/vnd.openxmlformats-officedocument.presentationml.presentation",
   "text/plain", "text/csv", "application/json", "application/xml"]

/-- The branch structure of `get_file_type_from_mime` after the source has
lowercased its argument (`mime_type = mime_type.lower()` then the
`if`/`elif` chain, `app/utils/file_utils.py` lines 8-22). -/
def classify_lower (m : String) : FileType :=
  if startswith m "image/" then .image
  else if startswith m "video/" then .video
  else if startswith m "audio/" then .audio
  else if m ∈ document_mime_types then .document
  else .other

/-- `get_file_type_from_mime` from `app/utils/file_utils.py`: lowercase the
MIME string, then classify. -/
def get_file_type_from_mime (mime_type : String) : FileType :=
  classify_lower (pyLower mime_type)

/-- A character-list prefix determines the head of the subject list. -/
theorem exists_head_of_isPrefixOf {c : Char} {cs l : List Char}
    (h : List.isPrefixOf (c :: cs) l = true) : ∃ t, l = c :: t := by
  cases l with
  | nil => simp [List.isPrefixOf] at h
  | cons d t =>
    simp [List.isPrefixOf] at h
    exact ⟨t, by rw [h.1]⟩

/-- Two patterns with distinct leading characters cannot both be prefixes
of the same string. -/
theorem startswith_false_of_head_ne {m p q : String} {c d : Char}
    {cs ds : List Char} (hp : p.data = c :: cs) (hq : q.data = d :: ds)
    (hcd : c ≠ d) (h : startswith m p = true) : startswith m q = false := by
  cases hmq : startswith m q with
  | false => rfl
  | true =>
    unfold startswith at h hmq
    rw [hp] at h
    rw [hq] at hmq
    obtain ⟨t, ht⟩ := exists_head_of_isPrefixOf h
    obtain ⟨u, hu⟩ := exists_head_of_isPrefixOf hmq
    rw [ht] at hu
    exact absurd (List.head_eq_of_cons_eq hu) hcd

/-- Classifier branch: an image/ prefix yields image. -/
theorem classify_lower_image {m : String} (h : startswith m "image/" = true) :
    classify_lower m = FileType.image := by
  simp [classify_lower, h]

/-- Classifier branch: a video/ prefix yields video. -/
theorem classify_lower_video {m : String} (h : startswith m "video/" = true) :
    classify_lower m = FileType.video := by
  have h1 : startswith m "image/" = false :=
    startswith_false_of_head_ne rfl rfl (by decide) h
  simp [classify_lower, h, h1]

/-- Classifier branch: an audio/ prefix yields audio. -/
theorem classify_lower_audio {m : String} (h : startswith m "audio/" = true) :
    classify_lower m = FileType.audio := by
  have h1 : startswith m "image/" = false :=
    startswith_false_of_head_ne rfl rfl (by decide) h
  have h2 : startswith m "video/" = false :=
    startswith_false_of_head_ne rfl rfl (by decide) h
  simp [classify_lower, h, h1, h2]

/-- Classifier branch: membership in the document allowlist yields document. -/
theorem classify_lower_document {m : String} (h : m ∈ document_mime_types) :
    classify_lower m = FileType.document := by
  fin_cases h <;> decide

/-- Classifier branch: anything else yields other. -/
theorem classify_lower_other {m : String} (h1 : startswith m "image/" = false)
    (h2 : startswith m "video/" = false) (h3 : startswith m "audio/" = false)
    (h4 : m ∉ document_mime_types) : classify_lower m = FileType.other := by
  simp [classify_lower, h1, h2, h3, h4]

/-- C7: the MIME classifier `get_file_type_from_mime` is a pure, total Lean
function; on the lowercased input a prefix match on image/, video/, audio/
yields the corresponding type, membership in the fixed document allowlist
yields document, and every other input yields other. -/
theorem get_file_type_from_mime_spec (mime : String) :
    (startswith (pyLower mime) "image/" = true →
      get_file_type_from_mime mime = FileType.image) ∧
    (startswith (pyLower mime) "video/" = true →
      get_file_type_from_mime mime = FileType.video) ∧
    (startswith (pyLower mime) "audio/" = true →
      get_file_type_from_mime mime = FileType.audio) ∧
    (pyLower mime ∈ document_mime_types →
      get_file_type_from_mime mime = FileType.document) ∧
    (startswith (pyLower mime) "image/" = false →
      startswith (pyLower mime) "video/" = false →
      startswith (pyLower mime) "audio/" = false →
      pyLower mime ∉ document_mime_types →
      get_file_type_from_mime mime = FileType.other) := by
  unfold get_file_type_from_mime
  exact ⟨classify_lower_image, classify_lower_video, classify_lower_audio,
    classify_lower_document, classify_lower_other⟩

/-- Witness for C7: concrete classifications through each branch, including
case-insensitivity. -/
theorem get_file_type_from_mime_spec_witness :
    get_file_type_from_mime "IMAGE/png" = FileType.image ∧
    get_file_type_from_mime "Video/mp4" = FileType.video ∧
    get_file_type_from_mime "audio/ogg" = FileType.audio ∧
    get_file_type_from_mime "Application/PDF" = FileType.document ∧
    get_file_type_from_mime "application/zip" = FileType.other :=
  ⟨(get_file_type_from_mime_spec "IMAGE/png").1 (by decide),
   (get_file_type_from_mime_spec "Video/mp4").2.1 (by decide),
   (get_file_type_from_mime_spec "audio/ogg").2.2.1 (by decide),
   (get_file_type_from_mime_spec "Application/PDF").2.2.2.1 (by decide),
   (get_file_type_from_mime_spec "application/zip").2.2.2.2
     (by decide) (by decide) (by decide) (by decide)⟩

/-- The resize computation shared by `optimize_image_for_web`
(`app/utils/web_utils.py` lines 41-46) and `ImageOptimizer.optimize_for_web`
(`app/utils/image_utils.py` lines 42-50): ratio = min(maxW/origW,
maxH/origH); resize to (int(origW*ratio), int(origH*ratio)) only when
ratio < 1, else keep the original dimensions. Python float division is
modelled as exact rational division, and Python int() truncation of the
nonnegative products as Nat.floor. -/
def image_resize_dims (origW origH maxW maxH : ℕ) : ℕ × ℕ :=
  let ratio : ℚ := min ((maxW : ℚ) / (origW : ℚ)) ((maxH : ℚ) / (origH : ℚ))
  if ratio < 1 then
    (Nat.floor ((origW : ℚ) * ratio), Nat.floor ((origH : ℚ) * ratio))
  else (origW, origH)

/-- The scale ratio is at least 1 exactly when the input already fits the
bounding box. -/
theorem ratio_ge_one_iff (origW origH maxW maxH : ℕ) (hw : 0 < origW) (hh : 0 < origH) :
    1 ≤ min ((maxW : ℚ) / (origW : ℚ)) ((maxH : ℚ) / (origH : ℚ)) ↔
      origW ≤ maxW ∧ origH ≤ maxH := by
  rw [le_min_iff]
  have hw' : (0 : ℚ) < (origW : ℚ) := by exact_mod_cast hw
  have hh' : (0 : ℚ) < (origH : ℚ) := by exact_mod_cast hh
  rw [one_le_div hw', one_le_div hh']
  constructor
  · intro h
    exact ⟨by exact_mod_cast h.1, by exact_mod_cast h.2⟩
  · intro h
    exact ⟨by exact_mod_cast h.1, by exact_mod_cast h.2⟩

/-- C4: image optimization only downscales (output dimensions never exceed
the input dimensions), the output always fits the bounding box, an input
already inside the bounding box is returned unchanged, and otherwise each
output dimension equals the input dimension times the scale factor
min(maxW/origW, maxH/origH), within less than one pixel of rounding. -/
theorem image_resize_dims_spec (origW origH maxW maxH : ℕ)
    (hw : 0 < origW) (hh : 0 < origH) :
    (image_resize_dims origW origH maxW maxH).1 ≤ origW ∧
    (image_resize_dims origW origH maxW maxH).2 ≤ origH ∧
    (image_resize_dims origW origH maxW maxH).1 ≤ maxW ∧
    (image_resize_dims origW origH maxW maxH).2 ≤ maxH ∧
    ((origW ≤ maxW ∧ origH ≤ maxH) →
      image_resize_dims origW origH maxW maxH = (origW, origH)) ∧
    (¬(origW ≤ maxW ∧ origH ≤ maxH) →
      (((image_resize_dims origW origH maxW maxH).1 : ℚ) ≤
        (origW : ℚ) * min ((maxW : ℚ) / (origW : ℚ)) ((maxH : ℚ) / (origH : ℚ)) ∧
       (origW : ℚ) * min ((maxW : ℚ) / (origW : ℚ)) ((maxH : ℚ) / (origH : ℚ)) - 1 <
        ((image_resize_dims origW origH maxW maxH).1 : ℚ) ∧
       ((image_resize_dims origW origH maxW maxH).2 : ℚ) ≤
        (origH : ℚ) * min ((maxW : ℚ) / (origW : ℚ)) ((maxH : ℚ) / (origH : ℚ)) ∧
       (origH : ℚ) * min ((maxW : ℚ) / (origW : ℚ)) ((maxH : ℚ) / (origH : ℚ)) - 1 <
        ((image_resize_dims origW origH maxW maxH).2 : ℚ))) := by
  have hw' : (0 : ℚ) < (origW : ℚ) := by exact_mod_cast hw
  have hh' : (0 : ℚ) < (origH : ℚ) := by exact_mod_cast hh
  set r : ℚ := min ((maxW : ℚ) / (origW : ℚ)) ((maxH : ℚ) / (origH : ℚ)) with hr
  have hr0 : 0 ≤ r :=
    le_min (div_nonneg (by positivity) hw'.le) (div_nonneg (by positivity) hh'.le)
  have hiff : 1 ≤ r ↔ origW ≤ maxW ∧ origH ≤ maxH :=
    ratio_ge_one_iff origW origH maxW maxH hw hh
  by_cases hlt : r < 1
  · have hd : image_resize_dims origW origH maxW maxH =
        (Nat.floor ((origW : ℚ) * r), Nat.floor ((origH : ℚ) * r)) := by
      simp only [image_resize_dims, ← hr]
      rw [if_pos hlt]
    have hWr : (origW : ℚ) * r ≤ (origW : ℚ) := by
      have := mul_le_mul_of_nonneg_left hlt.le hw'.le
      simpa using this
    have hHr : (origH : ℚ) * r ≤ (origH : ℚ) := by
      have := mul_le_mul_of_nonneg_left hlt.le hh'.le
      simpa using this
    have hWmax : (origW : ℚ) * r ≤ (maxW : ℚ) := by
      have h1 : (origW : ℚ) * r ≤ (origW : ℚ) * ((maxW : ℚ) / (origW : ℚ)) :=
        mul_le_mul_of_nonneg_left (min_le_left _ _) hw'.le
      have h2 : (origW : ℚ) * ((maxW : ℚ) / (origW : ℚ)) = (maxW : ℚ) := by
        rw [mul_comm, div_mul_cancel₀ _ (ne_of_gt hw')]
      rw [h2] at h1
      exact h1
    have hHmax : (origH : ℚ) * r ≤ (maxH : ℚ) := by
      have h1 : (origH : ℚ) * r ≤ (origH : ℚ) * ((maxH : ℚ) / (origH : ℚ)) :=
        mul_le_mul_of_nonneg_left (min_le_right _ _) hh'.le
      have h2 : (origH : ℚ) * ((maxH : ℚ) / (origH : ℚ)) = (maxH : ℚ) := by
        rw [mul_comm, div_mul_cancel₀ _ (ne_of_gt hh')]
      rw [h2] at h1
      exact h1
    have fW1 : ((Nat.floor ((origW : ℚ) * r) : ℕ) : ℚ) ≤ (origW : ℚ) * r :=
      Nat.floor_le (by positivity)
    have fW2 : (origW : ℚ) * r < (Nat.floor ((origW : ℚ) * r) : ℕ) + 1 :=
      Nat.lt_floor_add_one _
    have fH1 : ((Nat.floor ((origH : ℚ) * r) : ℕ) : ℚ) ≤ (origH : ℚ) * r :=
      Nat.floor_le (by positivity)
    have fH2 : (origH : ℚ) * r < (Nat.floor ((origH : ℚ) * r) : ℕ) + 1 :=
      Nat.lt_floor_add_one _
    refine ⟨?_, ?_, ?_, ?_, ?_, ?_⟩
    · rw [hd]
      exact (Nat.floor_le_floor (α := ℚ) hWr).trans_eq (Nat.floor_natCast _)
    · rw [hd]
      exact (Nat.floor_le_floor (α := ℚ) hHr).trans_eq (Nat.floor_natCast _)
    · rw [hd]
      exact (Nat.floor_le_floor (α := ℚ) hWmax).trans_eq (Nat.floor_natCast _)
    · rw [hd]
      exact (Nat.floor_le_floor (α := ℚ) hHmax).trans_eq (Nat.floor_natCast _)
    · intro hfit
      exact absurd (hiff.mpr hfit) (not_le.mpr hlt)
    · intro _
      rw [hd]
      exact ⟨fW1, by linarith, fH1, by linarith⟩
  · have hge : 1 ≤ r := not_lt.mp hlt
    have hfits := hiff.mp hge
    have hd : image_resize_dims origW origH maxW maxH = (origW, origH) := by
      simp only [image_resize_dims, ← hr]
      rw [if_neg hlt]
    refine ⟨?_, ?_, ?_, ?_, ?_, ?_⟩
    · rw [hd]
    · rw [hd]
    · rw [hd]; exact hfits.1
    · rw [hd]; exact hfits.2
    · intro _; exact hd
    · intro hn; exact absurd hfits hn

/-- Witness for C4: the bounding-box scenario 5000x3000 into 1200x800,
whose output is (1200, 720). -/
theorem image_resize_dims_spec_witness :
    image_resize_dims 5000 3000 1200 800 = (1200, 720) ∧
    (image_resize_dims 5000 3000 1200 800).1 ≤ 5000 ∧
    (image_resize_dims 5000 3000 1200 800).2 ≤ 3000 ∧
    (image_resize_dims 5000 3000 1200 800).1 ≤ 1200 ∧
    (image_resize_dims 5000 3000 1200 800).2 ≤ 800 :=
  have h := image_resize_dims_spec 5000 3000 1200 800 (by norm_num) (by norm_num)
  ⟨by norm_num [image_resize_dims, min_def], h.1, h.2.1, h.2.2.1, h.2.2.2.1⟩

/-- The compression-ratio formula of `ImageOptimizer.optimize_for_web`
(`app/utils/image_utils.py` line 70): (1 - optimized/original) * 100, with
Python float division modelled as exact rational division. The source
additionally rounds the reported number to two decimals; the bound claims
are about the unrounded value. -/
def compression_ratio (original_size optimized_size : ℕ) : ℚ :=
  (1 - (optimized_size : ℚ) / (original_size : ℚ)) * 100

/-- Metrics dictionary built by `ImageOptimizer.optimize_for_web`
(`app/utils/image_utils.py` lines 72-79). -/
structure ImgMetadata where
  original_dimensions : ℕ × ℕ
  optimized_dimensions : ℕ × ℕ
  original_size : ℕ
  optimized_size : ℕ
  compression_ratio : ℚ
  quality : ℕ
deriving DecidableEq, Repr

namespace ImageOptimizer

/-- `ImageOptimizer.optimize_for_web` from `app/utils/image_utils.py`:
decode (outcome given by the oracle decodeOk; on failure every exception is
caught and returned as (False, message, None)), resize under the bounding
box, re-encode as JPEG, and report metrics. The byte sizes found on disk
for the input and the encoder's output are the oracle inputs origSize and
optSize. -/
def optimize_for_web (decodeOk : Bool) (err : String)
    (origW origH origSize optSize quality maxW maxH : ℕ) :
    Bool × Option String × Option ImgMetadata :=
  if decodeOk then
    (true, none, some {
      original_dimensions := (origW, origH),
      optimized_dimensions := image_resize_dims origW origH maxW maxH,
      original_size := origSize,
      optimized_size := optSize,
      compression_ratio := compression_ratio origSize optSize,
      quality := quality })
  else (false, some err, none)

end ImageOptimizer

/-- C8 (amended): every successful ImageOptimizer optimization emits metrics
carrying the original/optimized dimensions, the original/optimized byte
sizes and the quality used, with compression ratio (1 - opt/orig) * 100;
the ratio lies between 0 and 100 whenever the optimized file is no larger
than the original (the code does not clamp it otherwise). -/
theorem optimize_for_web_metrics (err : String)
    (origW origH origSize optSize quality maxW maxH : ℕ) :
    (ImageOptimizer.optimize_for_web true err origW origH origSize optSize
        quality maxW maxH).1 = true ∧
    (ImageOptimizer.optimize_for_web true err origW origH origSize optSize
        quality maxW maxH).2.2 = some {
      original_dimensions := (origW, origH),
      optimized_dimensions := image_resize_dims origW origH maxW maxH,
      original_size := origSize,
      optimized_size := optSize,
      compression_ratio := (1 - (optSize : ℚ) / (origSize : ℚ)) * 100,
      quality := quality } ∧
    (0 < origSize → optSize ≤ origSize →
      0 ≤ compression_ratio origSize optSize ∧
      compression_ratio origSize optSize ≤ 100) := by
  refine ⟨rfl, rfl, ?_⟩
  intro ho hle
  have ho' : (0 : ℚ) < (origSize : ℚ) := by exact_mod_cast ho
  have h1 : (optSize : ℚ) / (origSize : ℚ) ≤ 1 := by
    rw [div_le_one ho']
    exact_mod_cast hle
  have h2 : 0 ≤ (optSize : ℚ) / (origSize : ℚ) := by positivity
  unfold compression_ratio
  constructor
  · nlinarith
  · nlinarith

/-- Witness for C8's amended bound: a 1000-byte original optimized to 250
bytes yields ratio 75, inside the unit-interval-percent range. -/
theorem optimize_for_web_metrics_witness :
    (ImageOptimizer.optimize_for_web true "" 5000 3000 1000 250 80 1200 800).1 = true ∧
    0 ≤ compression_ratio 1000 250 ∧
    compression_ratio 1000 250 ≤ 100 ∧
    compression_ratio 1000 250 = 75 :=
  have h := optimize_for_web_metrics "" 5000 3000 1000 250 80 1200 800
  have hb := h.2.2 (by norm_num) (by norm_num)
  ⟨h.1, hb.1, hb.2, by norm_num [compression_ratio]⟩

/-- Counterexample for C8: a downscaling optimization (5000x3000 bounded to
1200x800) in which the encoder's output file is larger than the input
(200 bytes from 100) reports a compression ratio of -100, outside [0, 100];
the code never guarantees the bound the claim states. -/
theorem optimize_for_web_metrics_counterexample :
    (ImageOptimizer.optimize_for_web true "" 5000 3000 100 200 80 1200 800).2.2 =
      some {
        original_dimensions := (5000, 3000),
        optimized_dimensions := (1200, 720),
        original_size := 100,
        optimized_size := 200,
        compression_ratio := -100,
        quality := 80 } ∧
    ¬ (0 : ℚ) ≤ -100 := by
  constructor
  · show some _ = some _
    norm_num [ImageOptimizer.optimize_for_web, compression_ratio,
      image_resize_dims, min_def]
  · norm_num

/-- Encodings written by `optimize_image_for_web` (`app/utils/web_utils.py`
lines 55-58): PNG when transparency is preserved, JPEG otherwise. -/
inductive ImgFormat where
  | jpeg
  | png
deriving DecidableEq, Repr

/-- Abstract file bytes: a byte size, an opaque content identity, and the
image encoding that produced them (none for raw uploaded bytes and for
verbatim copies). A byte-for-byte copy (shutil.copy2) duplicates the whole
blob. -/
structure Blob where
  size : Nat
  content : Nat
  encoding : Option ImgFormat
deriving DecidableEq, Repr

/-- Persisted file record, from `app/service/models.py` (`FileRecord`).
Timestamps are omitted (no claim concerns them); `file_metadata` is the
optional JSON string. -/
structure FileRecord where
  id : String
  filename : String
  original_filename : String
  file_type : FileType
  mime_type : String
  file_size : Nat
  file_path : String
  is_optimized : Bool
  optimized_path : Option String
  file_metadata : Option String
deriving DecidableEq, Repr

/-- Request-visible state: the filesystem (path to blob), the record table,
and the log of printed diagnostics. -/
structure Store where
  fsFiles : List (String × Blob)
  records : List FileRecord
  logs : List String
deriving DecidableEq, Repr

/-- Write a whole file: the path now maps to exactly this blob. -/
def fsWrite (st : Store) (p : String) (b : Blob) : Store :=
  { st with fsFiles := (p, b) :: st.fsFiles.filter (fun e => e.1 != p) }

/-- os.remove: drop the path from the filesystem. -/
def fsRemove (st : Store) (p : String) : Store :=
  { st with fsFiles := st.fsFiles.filter (fun e => e.1 != p) }

/-- Bytes currently stored at a path, if any. -/
def fsLookup (st : Store) (p : String) : Option Blob :=
  (st.fsFiles.find? (fun e => e.1 == p)).map (fun e => e.2)

/-- os.path.exists for a file path. -/
def fsExists (st : Store) (p : String) : Bool :=
  (fsLookup st p).isSome

/-- A print diagnostic (swallowed errors, optimization warnings). -/
def logPrint (st : Store) (msg : String) : Store :=
  { st with logs := msg :: st.logs }

/-- `FileCRUD.create_file_record` (`app/service/crud.py` lines 11-39):
build the record (optional arguments default exactly like the Python
keyword defaults) and add it. A failing commit is modelled at the call
sites as an exception before this step takes effect. -/
def create_file_record (st : Store) (newId : String)
    (filename original_filename : String) (file_type : FileType)
    (mime_type : String) (file_size : Nat) (file_path : String)
    (is_optimized : Bool := false) (optimized_path : Option String := none)
    (file_metadata : Option String := none) : Store × FileRecord :=
  let r : FileRecord :=
    { id := newId, filename := filename,
      original_filename := original_filename, file_type := file_type,
      mime_type := mime_type, file_size := file_size, file_path := file_path,
      is_optimized := is_optimized, optimized_path := optimized_path,
      file_metadata := file_metadata }
  ({ st with records := r :: st.records }, r)

/-- `FileCRUD.get_file_by_id` (`app/service/crud.py` lines 47-51). -/
def get_file_by_id (st : Store) (file_id : String) : Option FileRecord :=
  st.records.find? (fun r => r.id == file_id)

/-- `FileCRUD.get_file_by_filename` (`app/service/crud.py` lines 41-45). -/
def get_file_by_filename (st : Store) (filename : String) : Option FileRecord :=
  st.records.find? (fun r => r.filename == filename)

/-- `FileCRUD.delete_file_record` (`app/service/crud.py` lines 106-116):
look the record up by id; when found, delete it and report True, else
report False. -/
def delete_file_record (st : Store) (file_id : String) : Store × Bool :=
  match st.records.find? (fun r => r.id == file_id) with
  | some _ =>
      ({ st with records := st.records.eraseP (fun r => r.id == file_id) }, true)
  | none => (st, false)

/-- os.path.splitext restricted to bare filenames (no directory
separators): split at the last dot unless every character before it is a
dot. Mirrors the CPython algorithm for this case. -/
def splitext (s : String) : String × String :=
  match (s.data.reverse.takeWhile (fun c => c != '.')).length,
      s.data.reverse.length with
  | tailLen, totalLen =>
    if tailLen = totalLen then (s, "")
    else
      let i := totalLen - tailLen - 1
      if (s.data.take i).all (fun c => c == '.') then (s, "")
      else (⟨s.data.take i⟩, ⟨s.data.drop i⟩)

/-- `generate_unique_filename` (`app/utils/file_utils.py` lines 25-29):
replace the stem with a freshly generated uuid token (supplied as the
oracle unique_id) while keeping the extension. -/
def generate_unique_filename (unique_id : String) (original_filename : String) : String :=
  unique_id ++ (splitext original_filename).2

/-- `get_file_category_path` (`app/utils/file_utils.py` lines 32-34). -/
def get_file_category_path (file_type : FileType) : String :=
  fileTypeValue file_type

/-- `create_file_path` (`app/utils/file_utils.py` lines 37-40):
os.path.join(base_dir, category, filename) with / separators. -/
def create_file_path (base_dir : String) (file_type : FileType) (filename : String) : String :=
  base_dir ++ "/" ++ get_file_category_path file_type ++ "/" ++ filename

/-- Service configuration (`app/config.py`): the fields the routes read. -/
structure Settings where
  upload_directory : String
  max_file_size_mb : Nat
deriving DecidableEq, Repr

/-- Allowlist of `is_optimizable_image` (`app/utils/web_utils.py` lines
198-207): optimizable raster image MIME strings (SVG excluded). -/
def optimizable_image_mimes : List String :=
  ["image/jpeg", "image/jpg", "image/png", "image/bmp", "image/tiff", "image/webp"]

/-- `is_optimizable_image` from `app/utils/web_utils.py`. -/
def is_optimizable_image (mime_type : String) : Bool :=
  decide (pyLower mime_type ∈ optimizable_image_mimes)

/-- `is_optimizable_video` from `app/utils/web_utils.py` lines 210-212. -/
def is_optimizable_video (mime_type : String) : Bool :=
  startswith (pyLower mime_type) "video/"

/-- PIL color modes distinguished by `optimize_image_for_web`. -/
inductive ImgMode where
  | RGB
  | RGBA
  | LA
  | P
  | otherMode
deriving DecidableEq, Repr

/-- Transparency test of `optimize_image_for_web`
(`app/utils/web_utils.py` line 22): mode in ('RGBA', 'LA', 'P'). -/
def has_transparency : ImgMode → Bool
  | .RGBA => true
  | .LA => true
  | .P => true
  | _ => false

/-- Output encoding chosen by `optimize_image_for_web`
(`app/utils/web_utils.py` lines 55-58): PNG iff the input had transparency
and preserve_alpha was requested, JPEG in every other case. -/
def web_image_format (mode : ImgMode) (preserve_alpha : Bool) : ImgFormat :=
  if has_transparency mode && preserve_alpha then .png else .jpeg

/-- Timeout (seconds) of the ffmpeg version probe
(`check_ffmpeg_available`, `app/utils/web_utils.py` line 73). -/
def FFMPEG_VERSION_PROBE_TIMEOUT : Nat := 5

/-- Timeout (seconds) of the ffprobe metadata probe
(`get_video_info`, `app/utils/web_utils.py` line 85). -/
def FFPROBE_TIMEOUT : Nat := 10

/-- Timeout (seconds) of the ffmpeg transcode
(`app/utils/web_utils.py` line 185). -/
def FFMPEG_TRANSCODE_TIMEOUT : Nat := 300

/-- Constant-rate-factor mapping of `optimize_video_for_web`
(`app/utils/web_utils.py` lines 144-151). -/
def crf_for_quality (quality : String) : Nat :=
  if quality = "high" then 18
  else if quality = "medium" then 23
  else if quality = "low" then 28
  else 23

/-- Oracle for one call of `optimize_image_for_web`: outcome of the PIL
decode/resize/encode pipeline and the bytes it writes on success. -/
structure ImgEnv where
  decodeOk : Bool
  errMsg : String
  mode : ImgMode
  origW : Nat
  origH : Nat
  outSize : Nat
  outContent : Nat
deriving DecidableEq, Repr

/-- `optimize_image_for_web` (`app/utils/web_utils.py` lines 9-63): on a
successful pipeline run, write the re-encoded image (format chosen by
web_image_format, dimensions by image_resize_dims) to the output path and
return (True, None); every exception is caught and returned as
(False, message) with nothing written. -/
def optimize_image_for_web (env : ImgEnv) (st : Store)
    (input_path output_path : String) (quality max_width max_height : Nat)
    (preserve_alpha : Bool) : (Bool × Option String) × Store :=
  if env.decodeOk then
    ((true, none),
      fsWrite st output_path
        { size := env.outSize, content := env.outContent,
          encoding := some (web_image_format env.mode preserve_alpha) })
  else
    ((false, some env.errMsg), st)

/-- Oracle for one call of `optimize_video_for_web`: availability of the
external transcoder, outcome of the fallback copy, and outcome/bytes of a
transcode run. -/
structure VidEnv where
  ffmpegAvailable : Bool
  copyOk : Bool
  copyErr : String
  runOk : Bool
  runErr : String
  outSize : Nat
  outContent : Nat
deriving DecidableEq, Repr

/-- `optimize_video_for_web` (`app/utils/web_utils.py` lines 110-195). When
the version probe fails (ffmpegAvailable = false) the input is copied
byte-for-byte to the output path and (True, warning) is returned; a failed
copy is caught and returned as (False, message). When ffmpeg is available,
a zero exit within the timeout writes the transcoded output, any other
outcome returns (False, message). -/
def optimize_video_for_web (env : VidEnv) (st : Store)
    (input_path output_path : String) (max_width max_height : Nat)
    (quality : String) : (Bool × Option String) × Store :=
  if env.ffmpegAvailable then
    if env.runOk then
      ((true, none),
        fsWrite st output_path
          { size := env.outSize, content := env.outContent, encoding := none })
    else
      ((false, some ("FFmpeg error: " ++ env.runErr)), st)
  else
    if env.copyOk then
      match fsLookup st input_path with
      | some b =>
          ((true, some "FFmpeg not available - file copied without optimization"),
            fsWrite st output_path b)
      | none => ((false, some env.copyErr), st)
    else ((false, some env.copyErr), st)

/-- One upload request: the user-supplied filename, the declared
Content-Type (file.content_type may be absent), the MIME type inferred
from the name (the get_mime_type helper referenced by the routes is not in
the repository; per the spec the MIME is "as declared by the uploader or
inferred from the name", so the inferred value is request data), the
optional UploadFile.size attribute, and the uploaded bytes. -/
structure UploadRequest where
  filename : String
  content_type : Option String
  guessed_mime : String
  size : Option Nat
  blob : Blob
deriving DecidableEq, Repr

/-- mime_type = file.content_type or get_mime_type(file.filename)
(`app/api/routes.py` lines 62 and 133). -/
def request_mime (req : UploadRequest) : String :=
  req.content_type.getD req.guessed_mime

/-- Oracle for the effects an upload handler performs: whether the disk
write raises (and whether it leaves a partial file), whether the record
commit raises, whether os.remove raises inside the except-block cleanup,
whether the post-success os.remove of the original raises, and the two
generated uuid4 values. -/
structure DiskEnv where
  writeOk : Bool
  partialOnFail : Bool
  partialLen : Nat
  dbOk : Bool
  cleanupRemoveOk : Bool
  postRemoveOk : Bool
  uuidName : String
  uuidId : String
deriving DecidableEq, Repr

/-- Upload response fields the routes try to construct
(`app/api/routes.py` lines 87-96 and 201-210). The Pydantic model
`UploadResponse` in `app/service/models.py` additionally declares a
required is_optimized field that neither construction site passes, so in
the source the construction raises ValidationError inside the try-block
and no handler run ever produces this value; the type is kept to document
the attempted fields. -/
structure UploadResponse where
  id : String
  filename : String
  original_filename : String
  file_type : FileType
  mime_type : String
  file_size : Nat
  url : String
  message : String
deriving DecidableEq, Repr

/-- Result of an upload handler: an HTTPException with a status code, an
uncaught Python exception escaping the handler (pyError), or a response
(unreachable in the two upload handlers, whose response construction
raises; see UploadResponse). -/
inductive ApiResult where
  | httpError (status : Nat) (detail : String)
  | pyError (msg : String)
  | ok (resp : UploadResponse)
deriving DecidableEq, Repr

/-- The except-block cleanup of the upload handlers (`app/api/routes.py`
lines 98-102 and 212-217): for each path, if it exists, os.remove it. The
os.remove call is not wrapped in try/except, so a removal failure aborts
the loop and escapes. Returns the state after the removals that did happen
and whether the loop completed. -/
def cleanup_paths (removeOk : Bool) : List String → Store → Store × Bool
  | [], st => (st, true)
  | p :: ps, st =>
    if fsExists st p then
      if removeOk then cleanup_paths removeOk ps (fsRemove st p)
      else (st, false)
    else cleanup_paths removeOk ps st

/-- Outcome of an upload handler's except block: run the cleanup loop;
when it completes, surface HTTPException(500, detail); when an os.remove
inside it raises, that exception escapes instead and the original error is
masked. -/
def rollback_result (removeOk : Bool) (paths : List String) (st : Store)
    (detail : String) : ApiResult × Store :=
  match cleanup_paths removeOk paths st with
  | (st1, true) => (ApiResult.httpError 500 detail, st1)
  | (st1, false) => (ApiResult.pyError "os.remove raised during rollback", st1)

/-- The size guard of both upload handlers (`app/api/routes.py` lines 55
and 126): "if file.size and file.size > max_mb * 1024 * 1024". A missing
(None) size — and a zero size, which is falsy — skips the check; for
positive n the guard is exactly n > limit. -/
def size_exceeds (req : UploadRequest) (cfg : Settings) : Bool :=
  match req.size with
  | some n => decide (cfg.max_file_size_mb * 1024 * 1024 < n)
  | none => false

/-- `upload_file` (`app/api/routes.py` lines 46-102), POST /upload: size
guard, then derive MIME/type/path, then inside try: write the bytes,
create the record, and return the response. The return at lines 87-96
always raises: it omits the required is_optimized field of the non-table
Pydantic model UploadResponse, so construction fails with ValidationError
inside the try, after the record commit; the except block then cleans up
the written path and surfaces 500 wrapping str(e) (modelled as the fixed
detail string "Upload failed: validation error"). Any earlier exception
cleans up and surfaces 500 likewise. -/
def upload_file (cfg : Settings) (env : DiskEnv) (st : Store)
    (req : UploadRequest) : ApiResult × Store :=
  if size_exceeds req cfg then
    (ApiResult.httpError 413
      ("File too large. Maximum size: " ++ toString cfg.max_file_size_mb ++ "MB"), st)
  else
    let mime_type := request_mime req
    let file_type := get_file_type_from_mime mime_type
    let unique_filename := generate_unique_filename env.uuidName req.filename
    let file_path := create_file_path cfg.upload_directory file_type unique_filename
    if env.writeOk then
      let st1 := fsWrite st file_path req.blob
      if env.dbOk then
        let created := create_file_record st1 env.uuidId unique_filename
          req.filename file_type mime_type req.blob.size file_path
        rollback_result env.cleanupRemoveOk [file_path] created.1
          "Upload failed: validation error"
      else
        rollback_result env.cleanupRemoveOk [file_path] st1
          "Upload failed: database error"
    else
      let st1 :=
        if env.partialOnFail then
          fsWrite st file_path
            { size := env.partialLen, content := req.blob.content,
              encoding := req.blob.encoding }
        else st
      rollback_result env.cleanupRemoveOk [file_path] st1
        "Upload failed: write error"

/-- `upload_file_web_optimized` (`app/api/routes.py` lines 105-217), POST
/upload/web: validate video_quality, size guard, optimizability guard;
then inside try: write the original, run the matching optimizer, on
optimizer failure fall back to the original path (printing the warning),
read the final size from disk, create the record, delete the original when
an optimized artifact replaced it, and return the response. As in
upload_file, the return at lines 201-210 always raises ValidationError
(missing required is_optimized) inside the try, after the record commit
and after the post-success os.remove of the original; the except block
then cleans up both paths and surfaces 500 (modelled detail "Upload
failed: validation error"). Any earlier exception cleans up and surfaces
500 likewise. -/
def upload_file_web_optimized (cfg : Settings) (env : DiskEnv) (ienv : ImgEnv)
    (venv : VidEnv) (st : Store) (req : UploadRequest) (quality : Nat)
    (video_quality : String) (max_width max_height : Nat)
    (preserve_alpha : Bool) : ApiResult × Store :=
  if video_quality ∉ (["low", "medium", "high"] : List String) then
    (ApiResult.httpError 400 "video_quality must be one of: low, medium, high", st)
  else if size_exceeds req cfg then
    (ApiResult.httpError 413
      ("File too large. Maximum size: " ++ toString cfg.max_file_size_mb ++ "MB"), st)
  else
    let mime_type := request_mime req
    let file_type := get_file_type_from_mime mime_type
    if ¬ (is_optimizable_image mime_type || is_optimizable_video mime_type) then
      (ApiResult.httpError 400
        "Web optimization only supports images (JPEG, PNG, BMP, TIFF, WebP) and videos", st)
    else
      let unique_filename := generate_unique_filename env.uuidName req.filename
      let original_path := create_file_path cfg.upload_directory file_type unique_filename
      let optimized_path :=
        create_file_path cfg.upload_directory file_type ("web_" ++ unique_filename)
      if env.writeOk then
        let st1 := fsWrite st original_path req.blob
        let opt :=
          if is_optimizable_image mime_type then
            optimize_image_for_web ienv st1 original_path optimized_path
              quality max_width max_height preserve_alpha
          else
            optimize_video_for_web venv st1 original_path optimized_path
              max_width max_height video_quality
        let success := opt.1.1
        let error_msg := opt.1.2
        let final_path := if success then optimized_path else original_path
        let st2 :=
          if success then opt.2
          else logPrint opt.2 ("Optimization failed: " ++ error_msg.getD "None")
        match fsLookup st2 final_path with
        | none =>
          rollback_result env.cleanupRemoveOk [original_path, optimized_path] st2
            "Upload failed: getsize error"
        | some finalBlob =>
          if env.dbOk then
            let created := create_file_record st2 env.uuidId unique_filename
              req.filename file_type mime_type finalBlob.size final_path
            if success && (final_path != original_path) then
              if env.postRemoveOk then
                rollback_result env.cleanupRemoveOk [original_path, optimized_path]
                  (fsRemove created.1 original_path)
                  "Upload failed: validation error"
              else
                rollback_result env.cleanupRemoveOk [original_path, optimized_path]
                  created.1 "Upload failed: remove error"
            else
              rollback_result env.cleanupRemoveOk [original_path, optimized_path]
                created.1 "Upload failed: validation error"
          else
            rollback_result env.cleanupRemoveOk [original_path, optimized_path] st2
              "Upload failed: database error"
      else
        let st1 :=
          if env.partialOnFail then
            fsWrite st original_path
              { size := env.partialLen, content := req.blob.content,
                encoding := req.blob.encoding }
          else st
        rollback_result env.cleanupRemoveOk [original_path, optimized_path] st1
          "Upload failed: write error"

/-- Result of the public GET /files/filename endpoint. -/
inductive FetchResult where
  | httpError (status : Nat) (detail : String)
  | fileResponse (path : String) (media_type : String) (filename : String)
deriving DecidableEq, Repr

/-- `get_file` (`app/api/routes.py` lines 265-290): look the record up by
filename, 404 when missing or when its file_path is absent on disk, else
stream the file with the record's mime_type and original_filename. -/
def get_file (st : Store) (filename : String) : FetchResult :=
  match get_file_by_filename st filename with
  | none => FetchResult.httpError 404 "File not found"
  | some r =>
    if fsExists st r.file_path then
      FetchResult.fileResponse r.file_path r.mime_type r.original_filename
    else FetchResult.httpError 404 "File not found on disk"

/-- Result of the DELETE endpoints. -/
inductive DeleteResult where
  | httpError (status : Nat) (detail : String)
  | ok (message : String)
deriving DecidableEq, Repr

/-- `delete_file_by_id` (`app/api/routes.py` lines 237-262): 404 when the
id is unknown; otherwise remove the physical file with the error swallowed
into a log on failure, then delete the record. -/
def delete_file_by_id (removeOk : Bool) (st : Store) (file_id : String) :
    DeleteResult × Store :=
  match get_file_by_id st file_id with
  | none => (DeleteResult.httpError 404 "File not found", st)
  | some r =>
    let st1 :=
      if fsExists st r.file_path then
        if removeOk then fsRemove st r.file_path
        else logPrint st ("Error removing file " ++ r.file_path)
      else st
    let deleted := delete_file_record st1 file_id
    if deleted.2 then (DeleteResult.ok "File deleted successfully", deleted.1)
    else (DeleteResult.httpError 500 "Failed to delete file from database", deleted.1)

/-- `delete_file_by_filename` (`app/api/routes.py` lines 293-318): same as
deletion by id, with the record looked up by filename first. -/
def delete_file_by_filename (removeOk : Bool) (st : Store) (filename : String) :
    DeleteResult × Store :=
  match get_file_by_filename st filename with
  | none => (DeleteResult.httpError 404 "File not found", st)
  | some r =>
    let st1 :=
      if fsExists st r.file_path then
        if removeOk then fsRemove st r.file_path
        else logPrint st ("Error removing file " ++ r.file_path)
      else st
    let deleted := delete_file_record st1 r.id
    if deleted.2 then (DeleteResult.ok "File deleted successfully", deleted.1)
    else (DeleteResult.httpError 500 "Failed to delete file from database", deleted.1)

/-- Looking a key up right after writing it yields the written blob. -/
@[simp] theorem fsLookup_fsWrite_self (st : Store) (p : String) (b : Blob) :
    fsLookup (fsWrite st p b) p = some b := by
  simp [fsLookup, fsWrite, List.find?_cons]

/-- Filtering a key out of an association list does not change lookups of
other keys. -/
theorem find?_key_filter_ne {α β : Type} [BEq α] [LawfulBEq α] {p q : α}
    (h : p ≠ q) (l : List (α × β)) :
    (l.filter (fun e => e.1 != q)).find? (fun e => e.1 == p) =
      l.find? (fun e => e.1 == p) := by
  induction l with
  | nil => rfl
  | cons e t ih =>
    by_cases he : e.1 = p
    · have h1 : (e.1 != q) = true := by simp [bne, he, h]
      rw [List.filter_cons, if_pos h1]
      simp [List.find?_cons, he]
    · by_cases heq : e.1 = q
      · have h1 : ¬ ((e.1 != q) = true) := by simp [bne, heq]
        rw [List.filter_cons, if_neg h1]
        rw [ih]
        have h2 : (e.1 == p) = false := by simp [he]
        rw [List.find?_cons, h2]
      · have h1 : (e.1 != q) = true := by simp [bne, heq]
        rw [List.filter_cons, if_pos h1]
        have h2 : (e.1 == p) = false := by simp [he]
        rw [List.find?_cons, h2, List.find?_cons, h2, ih]

/-- After filtering a key out of an association list the key is gone. -/
theorem find?_key_filter_self {α β : Type} [BEq α] [LawfulBEq α] (q : α)
    (l : List (α × β)) :
    (l.filter (fun e => e.1 != q)).find? (fun e => e.1 == q) = none := by
  induction l with
  | nil => rfl
  | cons e t ih =>
    by_cases heq : e.1 = q
    · have h1 : ¬ ((e.1 != q) = true) := by simp [bne, heq]
      rw [List.filter_cons, if_neg h1, ih]
    · have h1 : (e.1 != q) = true := by simp [bne, heq]
      have h2 : (e.1 == q) = false := by simp [heq]
      rw [List.filter_cons, if_pos h1, List.find?_cons, h2, ih]

/-- Writing one path does not change lookups of another. -/
theorem fsLookup_fsWrite_ne {p q : String} (h : p ≠ q) (st : Store) (b : Blob) :
    fsLookup (fsWrite st q b) p = fsLookup st p := by
  have hb : (q == p) = false := by simp [beq_eq_false_iff_ne]; exact fun e => h e.symm
  simp [fsLookup, fsWrite, List.find?_cons, hb, find?_key_filter_ne h]

/-- A removed path no longer exists. -/
@[simp] theorem fsExists_fsRemove_self (st : Store) (p : String) :
    fsExists (fsRemove st p) p = false := by
  simp [fsExists, fsLookup, fsRemove, find?_key_filter_self]

/-- Removing one path does not change lookups of another. -/
theorem fsLookup_fsRemove_ne {p q : String} (h : p ≠ q) (st : Store) :
    fsLookup (fsRemove st q) p = fsLookup st p := by
  simp [fsLookup, fsRemove, find?_key_filter_ne h]

/-- State projections left untouched by the filesystem / log operations. -/
@[simp] theorem records_fsWrite (st : Store) (p : String) (b : Blob) :
    (fsWrite st p b).records = st.records := rfl

@[simp] theorem records_fsRemove (st : Store) (p : String) :
    (fsRemove st p).records = st.records := rfl

@[simp] theorem records_logPrint (st : Store) (m : String) :
    (logPrint st m).records = st.records := rfl

@[simp] theorem fsFiles_logPrint (st : Store) (m : String) :
    (logPrint st m).fsFiles = st.fsFiles := rfl

@[simp] theorem fsLookup_logPrint (st : Store) (m : String) (p : String) :
    fsLookup (logPrint st m) p = fsLookup st p := rfl

@[simp] theorem fsExists_logPrint (st : Store) (m : String) (p : String) :
    fsExists (logPrint st m) p = fsExists st p := rfl

@[simp] theorem logs_fsWrite (st : Store) (p : String) (b : Blob) :
    (fsWrite st p b).logs = st.logs := rfl

@[simp] theorem logs_fsRemove (st : Store) (p : String) :
    (fsRemove st p).logs = st.logs := rfl

/-- When at most one element satisfies p, erasing the first p-match leaves
no p-match behind. -/
theorem find?_eraseP_self {α : Type} (p : α → Bool) (l : List α)
    (h : l.countP p ≤ 1) : (l.eraseP p).find? p = none := by
  induction l with
  | nil => rfl
  | cons a t ih =>
    by_cases hp : p a = true
    · have hc : t.countP p = 0 := by
        have := List.countP_cons_of_pos p t hp
        omega
      rw [List.eraseP_cons, hp, cond_true, List.find?_eq_none]
      exact List.countP_eq_zero.mp hc
    · have hc : t.countP p ≤ 1 := by
        have := List.countP_cons_of_neg p t hp
        omega
      rw [List.eraseP_cons]
      have hpb : p a = false := by simpa using hp
      rw [hpb, cond_false, List.find?_cons_of_neg _ hp]
      exact ih hc

/-- Erasing the first p-match removes the unique q-element when the
p-match itself satisfies q and at most one element satisfies q. -/
theorem find?_eraseP_other {α : Type} (p q : α → Bool) (l : List α) (r : α)
    (hfind : l.find? p = some r) (hq : q r = true) (hcount : l.countP q ≤ 1) :
    (l.eraseP p).find? q = none := by
  induction l with
  | nil => simp at hfind
  | cons a t ih =>
    by_cases hp : p a = true
    · have ha : a = r := by
        rw [List.find?_cons_of_pos _ hp] at hfind
        exact Option.some.inj hfind
      have hqa : q a = true := ha ▸ hq
      have hc : t.countP q = 0 := by
        have := List.countP_cons_of_pos q t hqa
        omega
      rw [List.eraseP_cons, hp, cond_true, List.find?_eq_none]
      exact List.countP_eq_zero.mp hc
    · rw [List.find?_cons_of_neg _ hp] at hfind
      have hrt : r ∈ t := List.mem_of_find?_eq_some hfind
      have hqa : ¬ q a = true := by
        intro hqa
        have h1 := List.countP_cons_of_pos q t hqa
        have h2 : 0 < t.countP q := List.countP_pos_iff.mpr ⟨r, hrt, hq⟩
        omega
      have hc : t.countP q ≤ 1 := by
        have := List.countP_cons_of_neg q t hqa
        omega
      have hpb : p a = false := by simpa using hp
      rw [List.eraseP_cons, hpb, cond_false, List.find?_cons_of_neg _ hqa]
      exact ih hfind hc

/-- Fixture configuration for concrete witnesses. -/
def cfg0 : Settings := { upload_directory := "uploads", max_file_size_mb := 10 }

/-- Fixture empty state for concrete witnesses. -/
def st0 : Store := { fsFiles := [], records := [], logs := [] }

/-- Fixture effect oracle where every effect succeeds. -/
def env0 : DiskEnv :=
  { writeOk := true, partialOnFail := false, partialLen := 0, dbOk := true,
    cleanupRemoveOk := true, postRemoveOk := true, uuidName := "uuid-name",
    uuidId := "uuid-id" }

/-- Fixture image-pipeline oracle: successful decode of a 5000x3000 RGBA
image, encoded output of 1234 bytes. -/
def ienv0 : ImgEnv :=
  { decodeOk := true, errMsg := "", mode := ImgMode.RGBA, origW := 5000,
    origH := 3000, outSize := 1234, outContent := 42 }

/-- Fixture video oracle: transcoder unavailable, fallback copy succeeds. -/
def venv0 : VidEnv :=
  { ffmpegAvailable := false, copyOk := true, copyErr := "", runOk := false,
    runErr := "", outSize := 0, outContent := 0 }

/-- C2: an upload whose size exceeds the configured maximum is rejected
with 413 before any disk write, by both upload endpoints: the returned
state is the unchanged input state (no bytes written, no record created).
The size the guard reads is UploadFile.size, assumed to equal the actual
content length as set by the framework's multipart parser. -/
theorem upload_size_limit_spec (cfg : Settings) (env : DiskEnv) (ienv : ImgEnv)
    (venv : VidEnv) (st : Store) (req : UploadRequest) (quality : Nat)
    (video_quality : String) (max_width max_height : Nat) (preserve_alpha : Bool)
    (hsize : req.size = some req.blob.size)
    (hbig : cfg.max_file_size_mb * 1024 * 1024 < req.blob.size)
    (hvq : video_quality ∈ (["low", "medium", "high"] : List String)) :
    upload_file cfg env st req =
      (ApiResult.httpError 413
        ("File too large. Maximum size: " ++ toString cfg.max_file_size_mb ++ "MB"), st) ∧
    upload_file_web_optimized cfg env ienv venv st req quality video_quality
        max_width max_height preserve_alpha =
      (ApiResult.httpError 413
        ("File too large. Maximum size: " ++ toString cfg.max_file_size_mb ++ "MB"), st) := by
  have hx : size_exceeds req cfg = true := by
    simp [size_exceeds, hsize, hbig]
  constructor
  · simp [upload_file, hx]
  · simp [upload_file_web_optimized, hx, hvq]

/-- Witness for C2: an 11-MB upload against the 10-MB default limit is
rejected by both endpoints with the state untouched. -/
theorem upload_size_limit_spec_witness :
    upload_file cfg0 env0 st0
      { filename := "big.bin", content_type := some "application/zip",
        guessed_mime := "application/zip", size := some 11534336,
        blob := { size := 11534336, content := 7, encoding := none } } =
      (ApiResult.httpError 413
        ("File too large. Maximum size: " ++ toString cfg0.max_file_size_mb ++ "MB"),
        st0) ∧
    upload_file_web_optimized cfg0 env0 ienv0 venv0 st0
      { filename := "big.bin", content_type := some "application/zip",
        guessed_mime := "application/zip", size := some 11534336,
        blob := { size := 11534336, content := 7, encoding := none } }
      80 "medium" 1200 800 false =
      (ApiResult.httpError 413
        ("File too large. Maximum size: " ++ toString cfg0.max_file_size_mb ++ "MB"),
        st0) :=
  upload_size_limit_spec cfg0 env0 ienv0 venv0 st0
    { filename := "big.bin", content_type := some "application/zip",
      guessed_mime := "application/zip", size := some 11534336,
      blob := { size := 11534336, content := 7, encoding := none } }
    80 "medium" 1200 800 false rfl (by norm_num [cfg0]) (by decide)

/-- fsExists in terms of the underlying association-list search. -/
theorem fsExists_eq (st : Store) (p : String) :
    fsExists st p = (st.fsFiles.find? (fun e => e.1 == p)).isSome := by
  simp [fsExists, fsLookup]

/-- Filtering cannot create a match that was not there. -/
theorem find?_filter_none {α : Type} (f : α → Bool) (pred : α → Bool)
    (l : List α) (h : l.find? pred = none) : (l.filter f).find? pred = none := by
  rw [List.find?_eq_none] at h ⊢
  intro x hx
  exact h x (List.mem_of_mem_filter hx)

/-- Removing a path never makes another path appear. -/
theorem fsExists_fsRemove_absent {st : Store} {p : String} (q : String)
    (h : fsExists st p = false) : fsExists (fsRemove st q) p = false := by
  rw [fsExists_eq] at h ⊢
  rcases hf : st.fsFiles.find? (fun e => e.1 == p) with _ | e
  · have := find?_filter_none (fun e => e.1 != q) (fun e => e.1 == p) st.fsFiles hf
    simp [fsRemove, this]
  · rw [hf] at h
    simp at h

/-- The cleanup loop never creates files. -/
theorem cleanup_paths_absent (r : Bool) (ps : List String) (st : Store)
    (p : String) (h : fsExists st p = false) :
    fsExists (cleanup_paths r ps st).1 p = false := by
  induction ps generalizing st with
  | nil => exact h
  | cons q qs ih =>
    by_cases hq : fsExists st q = true
    · cases r with
      | true =>
        simp only [cleanup_paths, hq, if_true]
        exact ih _ (fsExists_fsRemove_absent q h)
      | false =>
        simp only [cleanup_paths, hq, if_true]
        exact h
    · have hq' : fsExists st q = false := by simpa using hq
      simp only [cleanup_paths, hq', Bool.false_eq_true, if_false]
      exact ih _ h

/-- With removals succeeding, every path passed to the cleanup loop is
absent afterwards. -/
theorem cleanup_paths_mem_absent (ps : List String) (st : Store) (p : String)
    (hmem : p ∈ ps) : fsExists (cleanup_paths true ps st).1 p = false := by
  induction ps generalizing st with
  | nil => cases hmem
  | cons q qs ih =>
    rcases List.mem_cons.mp hmem with hpq | hqs
    · subst hpq
      by_cases hq : fsExists st p = true
      · simp only [cleanup_paths, hq, if_true]
        exact cleanup_paths_absent true qs _ p (by simp)
      · have hq' : fsExists st p = false := by simpa using hq
        simp only [cleanup_paths, hq', Bool.false_eq_true, if_false]
        exact cleanup_paths_absent true qs _ p hq'
    · by_cases hq : fsExists st q = true
      · simp only [cleanup_paths, hq, if_true]
        exact ih _ hqs
      · have hq' : fsExists st q = false := by simpa using hq
        simp only [cleanup_paths, hq', Bool.false_eq_true, if_false]
        exact ih _ hqs

/-- With removals succeeding, the cleanup loop always completes. -/
theorem cleanup_paths_snd_true (ps : List String) (st : Store) :
    (cleanup_paths true ps st).2 = true := by
  induction ps generalizing st with
  | nil => rfl
  | cons q qs ih =>
    by_cases hq : fsExists st q = true
    · simp only [cleanup_paths, hq, if_true]
      exact ih _
    · have hq' : fsExists st q = false := by simpa using hq
      simp only [cleanup_paths, hq', Bool.false_eq_true, if_false]
      exact ih _

/-- The cleanup loop touches only the filesystem, not the records. -/
theorem cleanup_paths_records (r : Bool) (ps : List String) (st : Store) :
    (cleanup_paths r ps st).1.records = st.records := by
  induction ps generalizing st with
  | nil => rfl
  | cons q qs ih =>
    by_cases hq : fsExists st q = true
    · cases r with
      | true =>
        simp only [cleanup_paths, hq, if_true]
        rw [ih]
        rfl
      | false =>
        simp only [cleanup_paths, hq, if_true, Bool.false_eq_true, if_false]
    · have hq' : fsExists st q = false := by simpa using hq
      simp only [cleanup_paths, hq', Bool.false_eq_true, if_false]
      exact ih _

/-- With removals succeeding, the except-block surfaces 500 with the
cleanup's final state. -/
theorem rollback_result_true (ps : List String) (st : Store) (detail : String) :
    rollback_result true ps st detail =
      (ApiResult.httpError 500 detail, (cleanup_paths true ps st).1) := by
  have h2 := cleanup_paths_snd_true ps st
  unfold rollback_result
  rcases hc : cleanup_paths true ps st with ⟨st1, b⟩
  rw [hc] at h2
  simp at h2
  subst h2
  rfl

/-- When the first path exists and os.remove raises, the except block
aborts with the removal exception and an unchanged state: the original
error is masked. -/
theorem rollback_result_fail_head (p : String) (ps : List String) (st : Store)
    (detail : String) (hp : fsExists st p = true) :
    rollback_result false (p :: ps) st detail =
      (ApiResult.pyError "os.remove raised during rollback", st) := by
  unfold rollback_result
  simp only [cleanup_paths, hp, if_true, Bool.false_eq_true, if_false]

/-- A just-written path exists. -/
@[simp] theorem fsExists_fsWrite_self (st : Store) (p : String) (b : Blob) :
    fsExists (fsWrite st p b) p = true := by
  simp [fsExists]

/-- Writing one path does not change the existence of another. -/
theorem fsExists_fsWrite_ne {p q : String} (h : p ≠ q) (st : Store) (b : Blob) :
    fsExists (fsWrite st q b) p = fsExists st p := by
  simp [fsExists, fsLookup_fsWrite_ne h]

/-- The web-optimized output path differs from the original path (the
filename gains a web_ prefix). -/
theorem web_path_ne (dir : String) (t : FileType) (fn : String) :
    create_file_path dir t ("web_" ++ fn) ≠ create_file_path dir t fn := by
  intro h
  have hlen := congrArg String.length h
  simp only [create_file_path, get_file_category_path, String.length_append] at hlen
  have h4 : ("web_" : String).length = 4 := rfl
  rw [h4] at hlen
  omega

/-- C1 (amended): when an exception interrupts an upload after bytes were
written, the handler deletes every byte written during the attempt and
surfaces HTTPException 500 with no record created, provided the rollback
removals themselves succeed; a failing os.remove inside the except block
is not caught: it escapes, masking the original error, and leaves the
written bytes behind. Covers POST /upload (database failure and
partial-write failure) and POST /upload/web for an optimizable image
(database failure, under both optimizer outcomes). -/
theorem upload_rollback_spec (cfg : Settings) (env : DiskEnv) (ienv : ImgEnv)
    (venv : VidEnv) (st : Store) (req : UploadRequest) (quality : Nat)
    (video_quality : String) (max_width max_height : Nat)
    (preserve_alpha : Bool) (path porig popt : String)
    (hsz : size_exceeds req cfg = false)
    (hpath : path = create_file_path cfg.upload_directory
      (get_file_type_from_mime (request_mime req))
      (generate_unique_filename env.uuidName req.filename))
    (hporig : porig = create_file_path cfg.upload_directory
      (get_file_type_from_mime (request_mime req))
      (generate_unique_filename env.uuidName req.filename))
    (hpopt : popt = create_file_path cfg.upload_directory
      (get_file_type_from_mime (request_mime req))
      ("web_" ++ generate_unique_filename env.uuidName req.filename))
    (hvq : video_quality ∈ (["low", "medium", "high"] : List String))
    (him : is_optimizable_image (request_mime req) = true) :
    (env.writeOk = true → env.dbOk = false → env.cleanupRemoveOk = true →
      (upload_file cfg env st req).1 =
        ApiResult.httpError 500 "Upload failed: database error" ∧
      fsExists (upload_file cfg env st req).2 path = false ∧
      (upload_file cfg env st req).2.records = st.records) ∧
    (env.writeOk = true → env.dbOk = false → env.cleanupRemoveOk = false →
      (upload_file cfg env st req).1 =
        ApiResult.pyError "os.remove raised during rollback" ∧
      fsExists (upload_file cfg env st req).2 path = true) ∧
    (env.writeOk = false → env.partialOnFail = true → env.cleanupRemoveOk = true →
      (upload_file cfg env st req).1 =
        ApiResult.httpError 500 "Upload failed: write error" ∧
      fsExists (upload_file cfg env st req).2 path = false ∧
      (upload_file cfg env st req).2.records = st.records) ∧
    (env.writeOk = true → env.dbOk = false → env.cleanupRemoveOk = true →
      (upload_file_web_optimized cfg env ienv venv st req quality video_quality
          max_width max_height preserve_alpha).1 =
        ApiResult.httpError 500 "Upload failed: database error" ∧
      fsExists (upload_file_web_optimized cfg env ienv venv st req quality
          video_quality max_width max_height preserve_alpha).2 porig = false ∧
      fsExists (upload_file_web_optimized cfg env ienv venv st req quality
          video_quality max_width max_height preserve_alpha).2 popt = false ∧
      (upload_file_web_optimized cfg env ienv venv st req quality video_quality
          max_width max_height preserve_alpha).2.records = st.records) ∧
    (env.writeOk = true → env.dbOk = false → env.cleanupRemoveOk = false →
      (upload_file_web_optimized cfg env ienv venv st req quality video_quality
          max_width max_height preserve_alpha).1 =
        ApiResult.pyError "os.remove raised during rollback" ∧
      fsExists (upload_file_web_optimized cfg env ienv venv st req quality
          video_quality max_width max_height preserve_alpha).2 porig = true) := by
  subst hpath
  subst hporig
  subst hpopt
  have hne : create_file_path cfg.upload_directory
      (get_file_type_from_mime (request_mime req))
      (generate_unique_filename env.uuidName req.filename) ≠
    create_file_path cfg.upload_directory
      (get_file_type_from_mime (request_mime req))
      ("web_" ++ generate_unique_filename env.uuidName req.filename) :=
    fun h => web_path_ne _ _ _ h.symm
  refine ⟨?_, ?_, ?_, ?_, ?_⟩
  · intro hw hdb hrm
    have heval : upload_file cfg env st req =
        rollback_result true
          [create_file_path cfg.upload_directory
            (get_file_type_from_mime (request_mime req))
            (generate_unique_filename env.uuidName req.filename)]
          (fsWrite st
            (create_file_path cfg.upload_directory
              (get_file_type_from_mime (request_mime req))
              (generate_unique_filename env.uuidName req.filename)) req.blob)
          "Upload failed: database error" := by
      simp [upload_file, hsz, hw, hdb, hrm]
    rw [heval, rollback_result_true]
    exact ⟨rfl, cleanup_paths_mem_absent _ _ _ (by simp),
      by rw [cleanup_paths_records]; rfl⟩
  · intro hw hdb hrm
    have heval : upload_file cfg env st req =
        rollback_result false
          [create_file_path cfg.upload_directory
            (get_file_type_from_mime (request_mime req))
            (generate_unique_filename env.uuidName req.filename)]
          (fsWrite st
            (create_file_path cfg.upload_directory
              (get_file_type_from_mime (request_mime req))
              (generate_unique_filename env.uuidName req.filename)) req.blob)
          "Upload failed: database error" := by
      simp [upload_file, hsz, hw, hdb, hrm]
    rw [heval, rollback_result_fail_head _ _ _ _ (fsExists_fsWrite_self _ _ _)]
    exact ⟨rfl, fsExists_fsWrite_self _ _ _⟩
  · intro hw hpart hrm
    have heval : upload_file cfg env st req =
        rollback_result true
          [create_file_path cfg.upload_directory
            (get_file_type_from_mime (request_mime req))
            (generate_unique_filename env.uuidName req.filename)]
          (fsWrite st
            (create_file_path cfg.upload_directory
              (get_file_type_from_mime (request_mime req))
              (generate_unique_filename env.uuidName req.filename))
            { size := env.partialLen, content := req.blob.content,
              encoding := req.blob.encoding })
          "Upload failed: write error" := by
      simp [upload_file, hsz, hw, hpart, hrm]
    rw [heval, rollback_result_true]
    exact ⟨rfl, cleanup_paths_mem_absent _ _ _ (by simp),
      by rw [cleanup_paths_records]; rfl⟩
  · intro hw hdb hrm
    cases hdec : ienv.decodeOk with
    | true =>
      have heval : upload_file_web_optimized cfg env ienv venv st req quality
          video_quality max_width max_height preserve_alpha =
          rollback_result true
            [create_file_path cfg.upload_directory
              (get_file_type_from_mime (request_mime req))
              (generate_unique_filename env.uuidName req.filename),
             create_file_path cfg.upload_directory
              (get_file_type_from_mime (request_mime req))
              ("web_" ++ generate_unique_filename env.uuidName req.filename)]
            (fsWrite
              (fsWrite st
                (create_file_path cfg.upload_directory
                  (get_file_type_from_mime (request_mime req))
                  (generate_unique_filename env.uuidName req.filename)) req.blob)
              (create_file_path cfg.upload_directory
                (get_file_type_from_mime (request_mime req))
                ("web_" ++ generate_unique_filename env.uuidName req.filename))
              { size := ienv.outSize, content := ienv.outContent,
                encoding := some (web_image_format ienv.mode preserve_alpha) })
            "Upload failed: database error" := by
        simp [upload_file_web_optimized, hsz, hvq, him, hw, hdb, hrm,
          optimize_image_for_web, hdec]
      rw [heval, rollback_result_true]
      exact ⟨rfl, cleanup_paths_mem_absent _ _ _ (by simp),
        cleanup_paths_mem_absent _ _ _ (by simp),
        by rw [cleanup_paths_records]; rfl⟩
    | false =>
      have heval : upload_file_web_optimized cfg env ienv venv st req quality
          video_quality max_width max_height preserve_alpha =
          rollback_result true
            [create_file_path cfg.upload_directory
              (get_file_type_from_mime (request_mime req))
              (generate_unique_filename env.uuidName req.filename),
             create_file_path cfg.upload_directory
              (get_file_type_from_mime (request_mime req))
              ("web_" ++ generate_unique_filename env.uuidName req.filename)]
            (logPrint
              (fsWrite st
                (create_file_path cfg.upload_directory
                  (get_file_type_from_mime (request_mime req))
                  (generate_unique_filename env.uuidName req.filename)) req.blob)
              ("Optimization failed: " ++ ienv.errMsg))
            "Upload failed: database error" := by
        simp [upload_file_web_optimized, hsz, hvq, him, hw, hdb, hrm,
          optimize_image_for_web, hdec]
      rw [heval, rollback_result_true]
      exact ⟨rfl, cleanup_paths_mem_absent _ _ _ (by simp),
        cleanup_paths_mem_absent _ _ _ (by simp),
        by rw [cleanup_paths_records]; rfl⟩
  · intro hw hdb hrm
    cases hdec : ienv.decodeOk with
    | true =>
      have heval : upload_file_web_optimized cfg env ienv venv st req quality
          video_quality max_width max_height preserve_alpha =
          rollback_result false
            [create_file_path cfg.upload_directory
              (get_file_type_from_mime (request_mime req))
              (generate_unique_filename env.uuidName req.filename),
             create_file_path cfg.upload_directory
              (get_file_type_from_mime (request_mime req))
              ("web_" ++ generate_unique_filename env.uuidName req.filename)]
            (fsWrite
              (fsWrite st
                (create_file_path cfg.upload_directory
                  (get_file_type_from_mime (request_mime req))
                  (generate_unique_filename env.uuidName req.filename)) req.blob)
              (create_file_path cfg.upload_directory
                (get_file_type_from_mime (request_mime req))
                ("web_" ++ generate_unique_filename env.uuidName req.filename))
              { size := ienv.outSize, content := ienv.outContent,
                encoding := some (web_image_format ienv.mode preserve_alpha) })
            "Upload failed: database error" := by
        simp [upload_file_web_optimized, hsz, hvq, him, hw, hdb, hrm,
          optimize_image_for_web, hdec]
      have hex : fsExists
          (fsWrite
            (fsWrite st
              (create_file_path cfg.upload_directory
                (get_file_type_from_mime (request_mime req))
                (generate_unique_filename env.uuidName req.filename)) req.blob)
            (create_file_path cfg.upload_directory
              (get_file_type_from_mime (request_mime req))
              ("web_" ++ generate_unique_filename env.uuidName req.filename))
            { size := ienv.outSize, content := ienv.outContent,
              encoding := some (web_image_format ienv.mode preserve_alpha) })
          (create_file_path cfg.upload_directory
            (get_file_type_from_mime (request_mime req))
            (generate_unique_filename env.uuidName req.filename)) = true := by
        rw [fsExists_fsWrite_ne hne]
        exact fsExists_fsWrite_self _ _ _
      rw [heval, rollback_result_fail_head _ _ _ _ hex]
      exact ⟨rfl, hex⟩
    | false =>
      have heval : upload_file_web_optimized cfg env ienv venv st req quality
          video_quality max_width max_height preserve_alpha =
          rollback_result false
            [create_file_path cfg.upload_directory
              (get_file_type_from_mime (request_mime req))
              (generate_unique_filename env.uuidName req.filename),
             create_file_path cfg.upload_directory
              (get_file_type_from_mime (request_mime req))
              ("web_" ++ generate_unique_filename env.uuidName req.filename)]
            (logPrint
              (fsWrite st
                (create_file_path cfg.upload_directory
                  (get_file_type_from_mime (request_mime req))
                  (generate_unique_filename env.uuidName req.filename)) req.blob)
              ("Optimization failed: " ++ ienv.errMsg))
            "Upload failed: database error" := by
        simp [upload_file_web_optimized, hsz, hvq, him, hw, hdb, hrm,
          optimize_image_for_web, hdec]
      have hex : fsExists
          (logPrint
            (fsWrite st
              (create_file_path cfg.upload_directory
                (get_file_type_from_mime (request_mime req))
                (generate_unique_filename env.uuidName req.filename)) req.blob)
            ("Optimization failed: " ++ ienv.errMsg))
          (create_file_path cfg.upload_directory
            (get_file_type_from_mime (request_mime req))
            (generate_unique_filename env.uuidName req.filename)) = true := by
        rw [fsExists_logPrint]
        exact fsExists_fsWrite_self _ _ _
      rw [heval, rollback_result_fail_head _ _ _ _ hex]
      exact ⟨rfl, hex⟩

/-- Effect oracle in which the record commit fails and the rollback's
os.remove also fails. -/
def envC1 : DiskEnv :=
  { writeOk := true, partialOnFail := false, partialLen := 0, dbOk := false,
    cleanupRemoveOk := false, postRemoveOk := true, uuidName := "u",
    uuidId := "i" }

/-- Effect oracle in which the record commit fails but rollback removals
succeed. -/
def envA : DiskEnv :=
  { writeOk := true, partialOnFail := false, partialLen := 0, dbOk := false,
    cleanupRemoveOk := true, postRemoveOk := true, uuidName := "u",
    uuidId := "i" }

/-- A small PNG upload request. -/
def reqC1 : UploadRequest :=
  { filename := "a.png", content_type := some "image/png",
    guessed_mime := "image/png", size := some 3,
    blob := { size := 3, content := 9, encoding := none } }

/-- Counterexample for C1: with the database commit failing and the
rollback os.remove also failing, the surfaced error is the uncaught
removal exception, not the 500 wrapping the original error, and the
written bytes are left behind — rollback-deletion failures escalate and
mask the original error instead of being logged. -/
theorem upload_rollback_counterexample :
    (upload_file cfg0 envC1 st0 reqC1).1 =
      ApiResult.pyError "os.remove raised during rollback" ∧
    (upload_file cfg0 envC1 st0 reqC1).1 ≠
      ApiResult.httpError 500 "Upload failed: database error" ∧
    fsExists (upload_file cfg0 envC1 st0 reqC1).2 "uploads/image/u.png" = true := by
  decide

/-- Witness for C1 (amended): a concrete database-failure upload rolls the
written file back and surfaces 500 when the removal succeeds. -/
theorem upload_rollback_spec_witness :
    (upload_file cfg0 envA st0 reqC1).1 =
      ApiResult.httpError 500 "Upload failed: database error" ∧
    fsExists (upload_file cfg0 envA st0 reqC1).2 "uploads/image/u.png" = false ∧
    (upload_file cfg0 envA st0 reqC1).2.records = st0.records :=
  (upload_rollback_spec cfg0 envA ienv0 venv0 st0 reqC1 80 "medium" 1200 800
    false "uploads/image/u.png" "uploads/image/u.png" "uploads/image/web_u.png"
    (by decide) (by decide) (by decide) (by decide) (by decide) (by decide)).1
    rfl rfl rfl

/-- Boolean form of the path inequality, web-path on the left. -/
theorem web_bne_true (dir : String) (t : FileType) (fn : String) :
    (create_file_path dir t ("web_" ++ fn) != create_file_path dir t fn) = true := by
  simp only [bne, Bool.not_eq_true']
  simp only [beq_eq_false_iff_ne]
  exact web_path_ne dir t fn

/-- Boolean form of the path inequality, web-path on the right. -/
theorem web_bne_rev_true (dir : String) (t : FileType) (fn : String) :
    (create_file_path dir t fn != create_file_path dir t ("web_" ++ fn)) = true := by
  simp only [bne, Bool.not_eq_true']
  simp only [beq_eq_false_iff_ne]
  exact fun h => web_path_ne dir t fn h.symm

/-- Boolean equality of the two paths is false. -/
theorem web_beq_false (dir : String) (t : FileType) (fn : String) :
    (create_file_path dir t ("web_" ++ fn) == create_file_path dir t fn) = false := by
  simp only [beq_eq_false_iff_ne]
  exact web_path_ne dir t fn

/-- Fixture image-pipeline oracle where the decode fails. -/
def ienvFail : ImgEnv :=
  { decodeOk := false, errMsg := "cannot identify image file",
    mode := ImgMode.RGB, origW := 0, origH := 0, outSize := 0, outContent := 0 }

/-- A small MP4 upload request. -/
def reqVid : UploadRequest :=
  { filename := "v.mp4", content_type := some "video/mp4",
    guessed_mime := "video/mp4", size := some 5,
    blob := { size := 5, content := 11, encoding := none } }

/-- C6: deleting an existing record (by id or by filename) removes both
the metadata record and the backing file, after which fetching by filename
returns 404; when removing the file from disk fails, the error is
swallowed into a log and the record is still deleted (the response still
reports success and the filesystem is untouched), so a failed file removal
never leaves an orphaned record. Uniqueness of ids and filenames (the
spec's record invariants) are hypotheses. -/
theorem delete_spec (st : Store) (rec : FileRecord) (removeOk : Bool)
    (hfind : get_file_by_id st rec.id = some rec)
    (hfindfn : get_file_by_filename st rec.filename = some rec)
    (hid : st.records.countP (fun r => r.id == rec.id) ≤ 1)
    (hfn : st.records.countP (fun r => r.filename == rec.filename) ≤ 1) :
    ((delete_file_by_id removeOk st rec.id).1 =
        DeleteResult.ok "File deleted successfully" ∧
     get_file_by_id (delete_file_by_id removeOk st rec.id).2 rec.id = none ∧
     get_file (delete_file_by_id removeOk st rec.id).2 rec.filename =
       FetchResult.httpError 404 "File not found" ∧
     (removeOk = true →
       fsExists (delete_file_by_id removeOk st rec.id).2 rec.file_path = false) ∧
     (removeOk = false →
       (delete_file_by_id removeOk st rec.id).2.fsFiles = st.fsFiles)) ∧
    ((delete_file_by_filename removeOk st rec.filename).1 =
        DeleteResult.ok "File deleted successfully" ∧
     get_file_by_id (delete_file_by_filename removeOk st rec.filename).2 rec.id = none ∧
     get_file (delete_file_by_filename removeOk st rec.filename).2 rec.filename =
       FetchResult.httpError 404 "File not found" ∧
     (removeOk = true →
       fsExists (delete_file_by_filename removeOk st rec.filename).2 rec.file_path = false) ∧
     (removeOk = false →
       (delete_file_by_filename removeOk st rec.filename).2.fsFiles = st.fsFiles)) := by
  have hfind' : st.records.find? (fun r => r.id == rec.id) = some rec := hfind
  have hfindfn' : st.records.find? (fun r => r.filename == rec.filename) = some rec :=
    hfindfn
  have herase_id : (st.records.eraseP (fun r => r.id == rec.id)).find?
      (fun r => r.id == rec.id) = none :=
    find?_eraseP_self _ _ hid
  have herase_fn : (st.records.eraseP (fun r => r.id == rec.id)).find?
      (fun r => r.filename == rec.filename) = none :=
    find?_eraseP_other _ _ _ rec hfind' (by simp) hfn
  constructor
  · refine ⟨?_, ?_, ?_, ?_, ?_⟩
    · simp [delete_file_by_id, hfind, delete_file_record, apply_ite, hfind']
    · simp [delete_file_by_id, hfind, delete_file_record, apply_ite, hfind',
        get_file_by_id, herase_id]
    · simp [delete_file_by_id, hfind, delete_file_record, apply_ite, hfind',
        get_file, get_file_by_filename, herase_fn]
    · intro hrm
      subst hrm
      by_cases hex : fsExists st rec.file_path = true
      · have heval : (delete_file_by_id true st rec.id).2.fsFiles =
            st.fsFiles.filter (fun e => e.1 != rec.file_path) := by
          simp [delete_file_by_id, hfind, delete_file_record, apply_ite,
            hfind', hex, fsRemove]
        rw [fsExists_eq, heval, find?_key_filter_self]
        rfl
      · have hex' : fsExists st rec.file_path = false := by simpa using hex
        have heval : (delete_file_by_id true st rec.id).2.fsFiles =
            st.fsFiles := by
          simp [delete_file_by_id, hfind, delete_file_record, apply_ite,
            hfind', hex']
        rw [fsExists_eq, heval]
        rw [fsExists_eq] at hex'
        exact hex'
    · intro hrm
      subst hrm
      by_cases hex : fsExists st rec.file_path = true
      · simp [delete_file_by_id, hfind, delete_file_record, apply_ite, hfind',
          hex, logPrint]
      · have hex' : fsExists st rec.file_path = false := by simpa using hex
        simp [delete_file_by_id, hfind, delete_file_record, apply_ite, hfind',
          hex']
  · refine ⟨?_, ?_, ?_, ?_, ?_⟩
    · simp [delete_file_by_filename, hfindfn, delete_file_record, apply_ite,
        hfind']
    · simp [delete_file_by_filename, hfindfn, delete_file_record, apply_ite,
        hfind', get_file_by_id, herase_id]
    · simp [delete_file_by_filename, hfindfn, hfindfn', delete_file_record,
        apply_ite, hfind', get_file, get_file_by_filename, herase_fn]
    · intro hrm
      subst hrm
      by_cases hex : fsExists st rec.file_path = true
      · have heval : (delete_file_by_filename true st rec.filename).2.fsFiles =
            st.fsFiles.filter (fun e => e.1 != rec.file_path) := by
          simp [delete_file_by_filename, hfindfn, delete_file_record,
            apply_ite, hfind', hex, fsRemove]
        rw [fsExists_eq, heval, find?_key_filter_self]
        rfl
      · have hex' : fsExists st rec.file_path = false := by simpa using hex
        have heval : (delete_file_by_filename true st rec.filename).2.fsFiles =
            st.fsFiles := by
          simp [delete_file_by_filename, hfindfn, delete_file_record,
            apply_ite, hfind', hex']
        rw [fsExists_eq, heval]
        rw [fsExists_eq] at hex'
        exact hex'
    · intro hrm
      subst hrm
      by_cases hex : fsExists st rec.file_path = true
      · simp [delete_file_by_filename, hfindfn, delete_file_record, apply_ite,
          hfind', hex, logPrint]
      · have hex' : fsExists st rec.file_path = false := by simpa using hex
        simp [delete_file_by_filename, hfindfn, delete_file_record, apply_ite,
          hfind', hex']

/-- Fixture record for the deletion witness. -/
def rec0 : FileRecord :=
  { id := "id1", filename := "f1.png", original_filename := "o.png",
    file_type := FileType.image, mime_type := "image/png", file_size := 3,
    file_path := "uploads/image/f1.png", is_optimized := false,
    optimized_path := none, file_metadata := none }

/-- Fixture store holding rec0 and its backing file. -/
def stDel : Store :=
  { fsFiles := [("uploads/image/f1.png",
      { size := 3, content := 9, encoding := none })],
    records := [rec0], logs := [] }

/-- Witness for C6: deleting the only record by id removes record and
file and a subsequent fetch is 404; deleting by filename with the file
removal failing still reports success and leaves the filesystem alone. -/
theorem delete_spec_witness :
    (delete_file_by_id true stDel "id1").1 =
      DeleteResult.ok "File deleted successfully" ∧
    get_file_by_id (delete_file_by_id true stDel "id1").2 "id1" = none ∧
    get_file (delete_file_by_id true stDel "id1").2 "f1.png" =
      FetchResult.httpError 404 "File not found" ∧
    fsExists (delete_file_by_id true stDel "id1").2 "uploads/image/f1.png" = false ∧
    (delete_file_by_filename false stDel "f1.png").1 =
      DeleteResult.ok "File deleted successfully" ∧
    (delete_file_by_filename false stDel "f1.png").2.fsFiles = stDel.fsFiles := by
  have h := delete_spec stDel rec0 true (by decide) (by decide) (by decide)
    (by decide)
  have h2 := delete_spec stDel rec0 false (by decide) (by decide) (by decide)
    (by decide)
  exact ⟨h.1.1, h.1.2.1, h.1.2.2.1, h.1.2.2.2.1 rfl, h2.2.1,
    h2.2.2.2.2.2 rfl⟩

/-- C3 (code bug): the intended fallback (routes.py:178-195, "Use original
file if optimization fails") commits a record referencing the original
path and byte size and prints the warning, but the handler then crashes
constructing UploadResponse (missing required is_optimized), so the except
block deletes the original file and the request surfaces 500: the upload
is aborted and the original is not kept on disk, contradicting the claim
and the code's own fallback intent. Concrete evaluation at a failing
decode. -/
theorem optimization_failure_abort_bug :
    (upload_file_web_optimized cfg0 env0 ienvFail venv0 st0 reqC1 80 "medium"
        1200 800 false).1 =
      ApiResult.httpError 500 "Upload failed: validation error" ∧
    (upload_file_web_optimized cfg0 env0 ienvFail venv0 st0 reqC1 80 "medium"
        1200 800 false).2.records =
      [{ id := "uuid-id", filename := "uuid-name.png",
         original_filename := "a.png", file_type := FileType.image,
         mime_type := "image/png", file_size := 3,
         file_path := "uploads/image/uuid-name.png", is_optimized := false,
         optimized_path := none, file_metadata := none }] ∧
    fsExists (upload_file_web_optimized cfg0 env0 ienvFail venv0 st0 reqC1 80
        "medium" 1200 800 false).2 "uploads/image/uuid-name.png" = false ∧
    (upload_file_web_optimized cfg0 env0 ienvFail venv0 st0 reqC1 80 "medium"
        1200 800 false).2.logs =
      ["Optimization failed: cannot identify image file"] := by
  decide

/-- C5 (code bug): with the transcoder unavailable, optimize_video_for_web
itself does copy the input byte-for-byte and return success with the
non-fatal warning, and the committed record carries the original byte size
with is_optimized = False; but the request never returns success: the
UploadResponse construction raises (missing required is_optimized), the
except block deletes the verbatim copy, and the client receives 500 with
only the orphaned record persisted. Concrete evaluation. -/
theorem video_tool_unavailable_bug :
    (optimize_video_for_web venv0
        (fsWrite st0 "uploads/video/uuid-name.mp4" reqVid.blob)
        "uploads/video/uuid-name.mp4" "uploads/video/web_uuid-name.mp4"
        1200 800 "medium").1 =
      (true, some "FFmpeg not available - file copied without optimization") ∧
    fsLookup (optimize_video_for_web venv0
        (fsWrite st0 "uploads/video/uuid-name.mp4" reqVid.blob)
        "uploads/video/uuid-name.mp4" "uploads/video/web_uuid-name.mp4"
        1200 800 "medium").2 "uploads/video/web_uuid-name.mp4" =
      some { size := 5, content := 11, encoding := none } ∧
    (upload_file_web_optimized cfg0 env0 ienv0 venv0 st0 reqVid 80 "medium"
        1200 800 false).1 =
      ApiResult.httpError 500 "Upload failed: validation error" ∧
    (upload_file_web_optimized cfg0 env0 ienv0 venv0 st0 reqVid 80 "medium"
        1200 800 false).2.records =
      [{ id := "uuid-id", filename := "uuid-name.mp4",
         original_filename := "v.mp4", file_type := FileType.video,
         mime_type := "video/mp4", file_size := 5,
         file_path := "uploads/video/web_uuid-name.mp4", is_optimized := false,
         optimized_path := none, file_metadata := none }] ∧
    fsExists (upload_file_web_optimized cfg0 env0 ienv0 venv0 st0 reqVid 80
        "medium" 1200 800 false).2 "uploads/video/web_uuid-name.mp4" = false ∧
    fsExists (upload_file_web_optimized cfg0 env0 ienv0 venv0 st0 reqVid 80
        "medium" 1200 800 false).2 "uploads/video/uuid-name.mp4" = false ∧
    FFMPEG_VERSION_PROBE_TIMEOUT ≤ 5 := by
  decide

/-- Full evaluation of the mainline POST /upload/web image run (write,
optimize and record commit all succeed): after the post-success removal of
the original, the UploadResponse construction raises and the handler ends
in its except block over both paths with the record already committed. -/
theorem web_image_mainline_run (cfg : Settings) (env : DiskEnv) (ienv : ImgEnv)
    (venv : VidEnv) (st : Store) (req : UploadRequest) (quality : Nat)
    (video_quality : String) (max_width max_height : Nat)
    (preserve_alpha : Bool) (mime : String) (ftype : FileType)
    (ufn porig popt : String)
    (hsz : size_exceeds req cfg = false)
    (hvq : video_quality ∈ (["low", "medium", "high"] : List String))
    (hw : env.writeOk = true) (hdb : env.dbOk = true)
    (hrm : env.cleanupRemoveOk = true)
    (hpost : env.postRemoveOk = true)
    (him : is_optimizable_image mime = true)
    (hdec : ienv.decodeOk = true)
    (hmime : mime = request_mime req)
    (hft : ftype = get_file_type_from_mime mime)
    (hufn : ufn = generate_unique_filename env.uuidName req.filename)
    (hporig : porig = create_file_path cfg.upload_directory ftype ufn)
    (hpopt : popt = create_file_path cfg.upload_directory ftype ("web_" ++ ufn)) :
    upload_file_web_optimized cfg env ienv venv st req quality video_quality
        max_width max_height preserve_alpha =
      rollback_result true [porig, popt]
        (fsRemove
          { fsFiles :=
              (popt,
                { size := ienv.outSize, content := ienv.outContent,
                  encoding := some (web_image_format ienv.mode preserve_alpha) }) ::
                (porig, req.blob) ::
                  (st.fsFiles.filter (fun e => e.1 != porig)).filter
                    (fun e => e.1 != popt),
            records :=
              { id := env.uuidId, filename := ufn,
                original_filename := req.filename, file_type := ftype,
                mime_type := mime, file_size := ienv.outSize,
                file_path := popt, is_optimized := false,
                optimized_path := none, file_metadata := none } :: st.records,
            logs := st.logs } porig)
        "Upload failed: validation error" := by
  subst hmime
  subst hft
  subst hufn
  subst hporig
  subst hpopt
  simp [upload_file_web_optimized, hsz, hvq, him, hw, hdb, hrm, hpost, hdec,
    optimize_image_for_web, create_file_record, fsWrite, fsLookup,
    List.find?_cons, List.filter_cons, web_bne_true, web_bne_rev_true]

/-- C9: records created by the upload endpoints carry the keyword defaults
is_optimized = False and optimized_path = None; on the mainline /upload/web
image run the committed record stores the optimized artifact's path (the
web_ name) and byte size as its file_path and file_size, and the original
file is deleted, so no record ever carries a second optimized artifact
path. (The response construction then raises, so the records outlive a 500
response; the record contents are as stated.) -/
theorem upload_records_default_spec (cfg : Settings) (env : DiskEnv)
    (ienv : ImgEnv) (venv : VidEnv) (st : Store) (req : UploadRequest)
    (quality : Nat) (video_quality : String) (max_width max_height : Nat)
    (preserve_alpha : Bool) (mime : String) (ftype : FileType)
    (ufn porig popt : String)
    (hsz : size_exceeds req cfg = false)
    (hvq : video_quality ∈ (["low", "medium", "high"] : List String))
    (hw : env.writeOk = true) (hdb : env.dbOk = true)
    (hrm : env.cleanupRemoveOk = true)
    (hpost : env.postRemoveOk = true)
    (him : is_optimizable_image mime = true)
    (hdec : ienv.decodeOk = true)
    (hmime : mime = request_mime req)
    (hft : ftype = get_file_type_from_mime mime)
    (hufn : ufn = generate_unique_filename env.uuidName req.filename)
    (hporig : porig = create_file_path cfg.upload_directory ftype ufn)
    (hpopt : popt = create_file_path cfg.upload_directory ftype ("web_" ++ ufn)) :
    (upload_file cfg env st req).2.records =
      { id := env.uuidId, filename := ufn, original_filename := req.filename,
        file_type := ftype, mime_type := mime, file_size := req.blob.size,
        file_path := porig, is_optimized := false, optimized_path := none,
        file_metadata := none } :: st.records ∧
    (upload_file_web_optimized cfg env ienv venv st req quality video_quality
        max_width max_height preserve_alpha).2.records =
      { id := env.uuidId, filename := ufn, original_filename := req.filename,
        file_type := ftype, mime_type := mime, file_size := ienv.outSize,
        file_path := popt, is_optimized := false, optimized_path := none,
        file_metadata := none } :: st.records ∧
    fsExists (upload_file_web_optimized cfg env ienv venv st req quality
        video_quality max_width max_height preserve_alpha).2 porig = false := by
  have hrun := web_image_mainline_run cfg env ienv venv st req quality
    video_quality max_width max_height preserve_alpha mime ftype ufn porig popt
    hsz hvq hw hdb hrm hpost him hdec hmime hft hufn hporig hpopt
  subst hmime
  subst hft
  subst hufn
  subst hporig
  subst hpopt
  have hplain : upload_file cfg env st req =
      rollback_result true
        [create_file_path cfg.upload_directory
          (get_file_type_from_mime (request_mime req))
          (generate_unique_filename env.uuidName req.filename)]
        { fsFiles :=
            (create_file_path cfg.upload_directory
              (get_file_type_from_mime (request_mime req))
              (generate_unique_filename env.uuidName req.filename), req.blob) ::
              st.fsFiles.filter
                (fun e => e.1 != create_file_path cfg.upload_directory
                  (get_file_type_from_mime (request_mime req))
                  (generate_unique_filename env.uuidName req.filename)),
          records :=
            { id := env.uuidId,
              filename := generate_unique_filename env.uuidName req.filename,
              original_filename := req.filename,
              file_type := get_file_type_from_mime (request_mime req),
              mime_type := request_mime req, file_size := req.blob.size,
              file_path := create_file_path cfg.upload_directory
                (get_file_type_from_mime (request_mime req))
                (generate_unique_filename env.uuidName req.filename),
              is_optimized := false, optimized_path := none,
              file_metadata := none } :: st.records,
          logs := st.logs }
        "Upload failed: validation error" := by
    simp [upload_file, hsz, hw, hdb, hrm, create_file_record, fsWrite]
  refine ⟨?_, ?_, ?_⟩
  · rw [hplain, rollback_result_true, cleanup_paths_records]
  · rw [hrun, rollback_result_true, cleanup_paths_records]
    rfl
  · rw [hrun, rollback_result_true]
    exact cleanup_paths_mem_absent _ _ _ (by simp)

/-- GET /files/filename answers 404 File not found on disk when the record
exists but its file_path does not. -/
theorem get_file_404_of_missing (stq : Store) (r : FileRecord) (fn : String)
    (hfind : get_file_by_filename stq fn = some r)
    (hmiss : fsExists stq r.file_path = false) :
    get_file stq fn = FetchResult.httpError 404 "File not found on disk" := by
  simp [get_file, hfind, hmiss]

/-- C10 (amended): on the mainline web image upload with preserve_alpha
False the optimizer writes JPEG-encoded bytes whatever the input mode (and
PNG-encoded when an alpha channel is present and preserved), and the
committed record keeps the uploader's declared MIME type and the
extension-preserving uuid filename — so the record's declared type
disagrees with the encoding of the bytes the optimizer produced. However
the handler's response construction raises and the except-block cleanup
deletes the optimized artifact, so a subsequent download of the record
returns 404 File not found on disk: the mismatch is never actually
served. -/
theorem web_encoding_mismatch_spec (cfg : Settings) (env : DiskEnv)
    (ienv : ImgEnv) (venv : VidEnv) (st : Store) (req : UploadRequest)
    (quality : Nat) (video_quality : String) (max_width max_height : Nat)
    (mime : String) (ftype : FileType) (ufn porig popt : String)
    (hsz : size_exceeds req cfg = false)
    (hvq : video_quality ∈ (["low", "medium", "high"] : List String))
    (hw : env.writeOk = true) (hdb : env.dbOk = true)
    (hrm : env.cleanupRemoveOk = true)
    (hpost : env.postRemoveOk = true)
    (him : is_optimizable_image mime = true)
    (hdec : ienv.decodeOk = true)
    (hmime : mime = request_mime req)
    (hft : ftype = get_file_type_from_mime mime)
    (hufn : ufn = generate_unique_filename env.uuidName req.filename)
    (hporig : porig = create_file_path cfg.upload_directory ftype ufn)
    (hpopt : popt = create_file_path cfg.upload_directory ftype ("web_" ++ ufn)) :
    fsLookup (optimize_image_for_web ienv (fsWrite st porig req.blob) porig
        popt quality max_width max_height false).2 popt =
      some { size := ienv.outSize, content := ienv.outContent,
             encoding := some ImgFormat.jpeg } ∧
    (upload_file_web_optimized cfg env ienv venv st req quality video_quality
        max_width max_height false).2.records =
      { id := env.uuidId, filename := ufn, original_filename := req.filename,
        file_type := ftype, mime_type := mime, file_size := ienv.outSize,
        file_path := popt, is_optimized := false, optimized_path := none,
        file_metadata := none } :: st.records ∧
    ufn = env.uuidName ++ (splitext req.filename).2 ∧
    get_file (upload_file_web_optimized cfg env ienv venv st req quality
        video_quality max_width max_height false).2 ufn =
      FetchResult.httpError 404 "File not found on disk" ∧
    (has_transparency ienv.mode = true →
      web_image_format ienv.mode true = ImgFormat.png) ∧
    web_image_format ienv.mode false = ImgFormat.jpeg := by
  have hjpeg : web_image_format ienv.mode false = ImgFormat.jpeg := by
    simp [web_image_format]
  have hrun := web_image_mainline_run cfg env ienv venv st req quality
    video_quality max_width max_height false mime ftype ufn porig popt
    hsz hvq hw hdb hrm hpost him hdec hmime hft hufn hporig hpopt
  subst hmime
  subst hft
  subst hufn
  subst hporig
  subst hpopt
  have h2 : (upload_file_web_optimized cfg env ienv venv st req quality
      video_quality max_width max_height false).2.records =
      { id := env.uuidId,
        filename := generate_unique_filename env.uuidName req.filename,
        original_filename := req.filename,
        file_type := get_file_type_from_mime (request_mime req),
        mime_type := request_mime req, file_size := ienv.outSize,
        file_path := create_file_path cfg.upload_directory
          (get_file_type_from_mime (request_mime req))
          ("web_" ++ generate_unique_filename env.uuidName req.filename),
        is_optimized := false, optimized_path := none,
        file_metadata := none } :: st.records := by
    rw [hrun, rollback_result_true, cleanup_paths_records]
    rfl
  have hmiss : fsExists (upload_file_web_optimized cfg env ienv venv st req
      quality video_quality max_width max_height false).2
      (create_file_path cfg.upload_directory
        (get_file_type_from_mime (request_mime req))
        ("web_" ++ generate_unique_filename env.uuidName req.filename)) =
      false := by
    rw [hrun, rollback_result_true]
    exact cleanup_paths_mem_absent _ _ _ (by simp)
  refine ⟨?_, h2, rfl, ?_, ?_, hjpeg⟩
  · simp [optimize_image_for_web, hdec, hjpeg]
  · have hfind : get_file_by_filename (upload_file_web_optimized cfg env ienv
        venv st req quality video_quality max_width max_height false).2
        (generate_unique_filename env.uuidName req.filename) =
        some
          { id := env.uuidId,
            filename := generate_unique_filename env.uuidName req.filename,
            original_filename := req.filename,
            file_type := get_file_type_from_mime (request_mime req),
            mime_type := request_mime req, file_size := ienv.outSize,
            file_path := create_file_path cfg.upload_directory
              (get_file_type_from_mime (request_mime req))
              ("web_" ++ generate_unique_filename env.uuidName req.filename),
            is_optimized := false, optimized_path := none,
            file_metadata := none } := by
      unfold get_file_by_filename
      rw [h2]
      simp [List.find?_cons]
    exact get_file_404_of_missing _ _ _ hfind hmiss
  · intro ht
    simp [web_image_format, ht]

/-- Counterexample for C10: after the concrete mainline optimized upload,
downloading the stored filename yields 404 File not found on disk, not a
response carrying the declared MIME — the claimed served mismatch never
occurs because the cleanup deleted the artifact. -/
theorem web_encoding_mismatch_counterexample :
    get_file (upload_file_web_optimized cfg0 env0 ienv0 venv0 st0 reqC1 80
        "medium" 1200 800 false).2 "uuid-name.png" =
      FetchResult.httpError 404 "File not found on disk" ∧
    ¬ get_file (upload_file_web_optimized cfg0 env0 ienv0 venv0 st0 reqC1 80
        "medium" 1200 800 false).2 "uuid-name.png" =
      FetchResult.fileResponse "uploads/image/web_uuid-name.png" "image/png"
        "a.png" := by
  decide

/-- Witness for C9: the concrete records committed by both endpoints carry
is_optimized = False and optimized_path = None, the web record points at
the web_ artifact path with the encoded size, and the original file is
gone. -/
theorem upload_records_default_spec_witness :
    (upload_file cfg0 env0 st0 reqC1).2.records =
      [{ id := "uuid-id", filename := "uuid-name.png",
         original_filename := "a.png", file_type := FileType.image,
         mime_type := "image/png", file_size := 3,
         file_path := "uploads/image/uuid-name.png", is_optimized := false,
         optimized_path := none, file_metadata := none }] ∧
    (upload_file_web_optimized cfg0 env0 ienv0 venv0 st0 reqC1 80 "medium"
        1200 800 false).2.records =
      [{ id := "uuid-id", filename := "uuid-name.png",
         original_filename := "a.png", file_type := FileType.image,
         mime_type := "image/png", file_size := 1234,
         file_path := "uploads/image/web_uuid-name.png", is_optimized := false,
         optimized_path := none, file_metadata := none }] ∧
    fsExists (upload_file_web_optimized cfg0 env0 ienv0 venv0 st0 reqC1 80
        "medium" 1200 800 false).2 "uploads/image/uuid-name.png" = false := by
  have h := upload_records_default_spec cfg0 env0 ienv0 venv0 st0 reqC1 80
    "medium" 1200 800 false "image/png" FileType.image "uuid-name.png"
    "uploads/image/uuid-name.png" "uploads/image/web_uuid-name.png"
    (by decide) (by decide) rfl rfl rfl rfl (by decide) rfl (by decide)
    (by decide) (by decide) (by decide) (by decide)
  exact ⟨h.1.trans (by decide), h.2.1.trans (by decide), h.2.2⟩

/-- Witness for C10: the concrete declared-PNG upload whose optimizer
output is JPEG-encoded, whose stored filename keeps the .png extension,
and whose subsequent download 404s. -/
theorem web_encoding_mismatch_spec_witness :
    fsLookup (optimize_image_for_web ienv0
        (fsWrite st0 "uploads/image/uuid-name.png" reqC1.blob)
        "uploads/image/uuid-name.png" "uploads/image/web_uuid-name.png"
        80 1200 800 false).2 "uploads/image/web_uuid-name.png" =
      some { size := 1234, content := 42, encoding := some ImgFormat.jpeg } ∧
    "uuid-name.png" = "uuid-name" ++ (splitext "a.png").2 ∧
    get_file (upload_file_web_optimized cfg0 env0 ienv0 venv0 st0 reqC1 80
        "medium" 1200 800 false).2 "uuid-name.png" =
      FetchResult.httpError 404 "File not found on disk" ∧
    web_image_format ImgMode.RGBA true = ImgFormat.png ∧
    web_image_format ImgMode.RGBA false = ImgFormat.jpeg := by
  have h := web_encoding_mismatch_spec cfg0 env0 ienv0 venv0 st0 reqC1 80
    "medium" 1200 800 "image/png" FileType.image "uuid-name.png"
    "uploads/image/uuid-name.png" "uploads/image/web_uuid-name.png"
    (by decide) (by decide) rfl rfl rfl rfl (by decide) rfl (by decide)
    (by decide) (by decide) (by decide) (by decide)
  exact ⟨h.1.trans (by decide), h.2.2.1, h.2.2.2.1, h.2.2.2.2.1 (by decide),
    h.2.2.2.2.2⟩
